import Mathlib

/-!
# Verification of the raspi-moisture-sensor coordinator and agent core

Shallow embedding of the orchestrator (token lifecycle, config versioning,
alert engine) and the agent-side durable buffer, translated from
`src/orchestrator/{models,auth,agents,config_mgmt,alerts}.py` and
`src/pi-agent/storage.py`.  Timestamps are unix seconds modelled as `Int`;
moisture percentages and thresholds are modelled as `Rat` (the Python code
uses floats, but every operation on them here is a comparison or an
addition/subtraction of configured constants).
-/

namespace RaspiMoisture

/-- Model of the external passlib `sha256_crypt` hashing used by
`pwd_context.hash` in `models.py` (a third-party library, outside this
repository): abstracted as a deterministic injective encoding, so that
verification succeeds exactly when the stored hash is the hash of the
presented plaintext. -/
def hashToken (plain : String) : String := "h#" ++ plain

/-- Model of `BootstrapToken.verify_token` / `Agent.verify_token` in
`models.py`: verify a plaintext token against a stored hash. -/
def verifyToken (plain : String) (hashed : String) : Bool :=
  hashToken plain == hashed

/-- `BootstrapToken` row from `models.py` (audit column `created_at` is
omitted: no operation reads it). `expires_at` is a unix timestamp,
`max_uses` is `NULL`able. -/
structure BootstrapToken where
  token_hash : String
  expires_at : Int
  used_count : Int
  max_uses : Option Int
deriving Repr, DecidableEq

/-- `BootstrapToken.is_expired`: `datetime.now() > self.expires_at`. -/
def BootstrapToken.is_expired (t : BootstrapToken) (now : Int) : Bool :=
  now > t.expires_at

/-- Python truthiness of the `max_uses` column: `None` and `0` are falsy,
every other integer is truthy (mirrors `if self.max_uses and ...`). -/
def intOptionTruthy : Option Int → Bool
  | none => false
  | some m => m != 0

/-- `BootstrapToken.is_valid` from `models.py`:
`if self.is_expired(): return False`;
`if self.max_uses and self.used_count >= self.max_uses: return False`;
`return True`. -/
def BootstrapToken.is_valid (t : BootstrapToken) (now : Int) : Bool :=
  if t.is_expired now then false
  else if intOptionTruthy t.max_uses && decide (t.used_count ≥ t.max_uses.getD 0) then false
  else true

/-- The validity predicate as the spec words it ("valid iff not expired and
(`max_uses` is null or `used_count < max_uses`)"), written for comparison
against the code's `BootstrapToken.is_valid`. -/
def specTokenValid (t : BootstrapToken) (now : Int) : Bool :=
  !(t.is_expired now) &&
    (match t.max_uses with
     | none => true
     | some m => decide (t.used_count < m))

/-- `Agent` row from `models.py` (audit columns `registered_at` and
`agent_metadata` are omitted: no claim-relevant operation reads them). -/
structure Agent where
  agent_id : String
  hostname : String
  hardware : String
  agent_token_hash : String
  last_heartbeat : Option Int
  last_sync_at : Option Int
  status : String
  desired_config_version : Int
  applied_config_version : Int
deriving Repr, DecidableEq

/-- `AgentConfig` row from `models.py` (the surrogate autoincrement `id` and
`created_at` are omitted: every query keys on (`agent_id`, `version`)).
`config_data` (a JSON blob) is kept opaque as a string. -/
structure AgentConfigRow where
  agent_id : String
  version : Int
  config_data : String
  applied_at : Option Int
deriving Repr, DecidableEq

/-- `ActiveAlert` row from `models.py`. -/
structure ActiveAlert where
  id : Int
  agent_id : String
  sensor_channel : Int
  alert_type : String
  triggered_at : Int
  resolved_at : Option Int
  acknowledged : Bool
  moisture_percent : Option Rat
  threshold : Option Rat
  location : String
  plant_type : String
  sensor_name : String
deriving Repr, DecidableEq

/-- The coordinator's relational store: the four tables used by the claims,
plus the autoincrement counter backing `ActiveAlert.id`. -/
structure Db where
  agents : List Agent
  bootstrap_tokens : List BootstrapToken
  agent_configs : List AgentConfigRow
  active_alerts : List ActiveAlert
  next_alert_id : Int
deriving Repr, DecidableEq

/-- The empty store (fresh deployment, `init_db`). -/
def Db.empty : Db :=
  { agents := [], bootstrap_tokens := [], agent_configs := [],
    active_alerts := [], next_alert_id := 1 }

/-- HTTP-level outcomes raised by the endpoints (`HTTPException` status
codes used in the orchestrator: 401, 403, 404, 409, 304). -/
inductive ApiError where
  | Unauthorized
  | Forbidden
  | NotFound
  | Conflict
  | NotModified
deriving Repr, DecidableEq

/-- Update the first element satisfying `p` in place, leaving the rest of
the list untouched.  This models a SQLAlchemy ORM mutation of the row
returned by a `.first()` query followed by `commit()`. -/
def updateFirst (p : α → Bool) (f : α → α) : List α → List α
  | [] => []
  | x :: xs => if p x then f x :: xs else x :: updateFirst p f xs

/-- The candidate scan inside `verify_bootstrap_token` (`auth.py`): walk the
stored bootstrap tokens; on the first hash match, fail with 401 if the token
is expired/exhausted, otherwise return it; 401 if nothing matches. -/
def findBootstrap (toks : List BootstrapToken) (plain : String) (now : Int) :
    Except ApiError BootstrapToken :=
  match toks with
  | [] => .error .Unauthorized
  | bt :: rest =>
    if verifyToken plain bt.token_hash then
      (if bt.is_valid now then .ok bt else .error .Unauthorized)
    else findBootstrap rest plain now

/-- `verify_bootstrap_token` from `auth.py`, over the whole store. -/
def verify_bootstrap_token (db : Db) (plain : String) (now : Int) :
    Except ApiError BootstrapToken :=
  findBootstrap db.bootstrap_tokens plain now

/-- `verify_agent_token` from `auth.py`: linear scan over all agents (no
filter on `status`), returning the first agent whose stored hash verifies
the presented token; `none` models the 401. -/
def verify_agent_token (db : Db) (plain : String) : Option Agent :=
  db.agents.find? (fun a => verifyToken plain a.agent_token_hash)

/-- Body of `AgentRegistrationRequest` (`agents.py`). -/
structure RegistrationRequest where
  agent_id : String
  hostname : String
  hardware : String
deriving Repr, DecidableEq

/-- The fresh `Agent` row built by `register_agent`. -/
def mkAgent (req : RegistrationRequest) (token_hash : String) : Agent :=
  { agent_id := req.agent_id, hostname := req.hostname,
    hardware := req.hardware, agent_token_hash := token_hash,
    last_heartbeat := none, last_sync_at := none, status := "active",
    desired_config_version := 1, applied_config_version := 0 }

/-- `register_agent` from `agents.py`.  `plain` is the presented bootstrap
token; `fresh` stands in for the random `generate_agent_token()` output
(passed explicitly so the function is deterministic).  On success returns
the plaintext agent token and the committed store: the new agent row is
appended and the matched bootstrap token's `used_count` is incremented. -/
def register_agent (db : Db) (now : Int) (plain : String)
    (req : RegistrationRequest) (fresh : String) :
    Except ApiError (String × Db) :=
  match verify_bootstrap_token db plain now with
  | .error e => .error e
  | .ok _ =>
    if db.agents.any (fun a => a.agent_id == req.agent_id) then
      .error .Conflict
    else
      .ok (fresh,
        { db with
          agents := db.agents ++ [mkAgent req (hashToken fresh)],
          bootstrap_tokens :=
            updateFirst (fun bt => verifyToken plain bt.token_hash)
              (fun bt => { bt with used_count := bt.used_count + 1 })
              db.bootstrap_tokens })

/-- `agent_heartbeat` from `agents.py`: authenticate, 403 on path/token
agent-id mismatch, then set `last_heartbeat = now` on the authenticated
row and commit. -/
def agent_heartbeat (db : Db) (now : Int) (aid : String) (plain : String) :
    Except ApiError Db :=
  match verify_agent_token db plain with
  | none => .error .Unauthorized
  | some a =>
    if a.agent_id != aid then .error .Forbidden
    else
      .ok { db with
            agents :=
              updateFirst (fun x => verifyToken plain x.agent_token_hash)
                (fun x => { x with last_heartbeat := some now })
                db.agents }

/-- `decommission_agent` from `agents.py`: 404 if the agent id is unknown,
otherwise flip `status` to `'decommissioned'` on that row. -/
def decommission_agent (db : Db) (aid : String) : Except ApiError Db :=
  match db.agents.find? (fun a => a.agent_id == aid) with
  | none => .error .NotFound
  | some _ =>
    .ok { db with
          agents :=
            updateFirst (fun a => a.agent_id == aid)
              (fun a => { a with status := "decommissioned" })
              db.agents }

/-- `create_bootstrap_token` from `agents.py`: append a new token row with
`used_count = 0` (the column default). -/
def create_bootstrap_token (db : Db) (token_hash : String) (expires_at : Int)
    (max_uses : Option Int) : Db :=
  { db with
    bootstrap_tokens := db.bootstrap_tokens ++
      [{ token_hash := token_hash, expires_at := expires_at,
         used_count := 0, max_uses := max_uses }] }

/-- Response body of `GET /agents/{id}/config` (`ConfigResponse` in
`config_mgmt.py`). -/
structure ConfigResponse where
  version : Int
  config : String
deriving Repr, DecidableEq

/-- The `AgentConfig` lookup used by `get_agent_config` and
`report_config_applied`: first row matching (`agent_id`, `version`). -/
def findConfigRow (db : Db) (aid : String) (version : Int) :
    Option AgentConfigRow :=
  db.agent_configs.find? (fun c => c.agent_id == aid && c.version == version)

/-- `get_agent_config` from `config_mgmt.py` (the pull endpoint):
authenticate, 403 on id mismatch, 304 when `applied ≥ desired`, otherwise
serve the row at `desired_config_version`, falling back to an empty
`version = 1` config when that row is missing.  The endpoint never writes,
so only the response is returned. -/
def get_agent_config (db : Db) (aid : String) (plain : String) :
    Except ApiError ConfigResponse :=
  match verify_agent_token db plain with
  | none => .error .Unauthorized
  | some a =>
    if a.agent_id != aid then .error .Forbidden
    else if a.applied_config_version ≥ a.desired_config_version then
      .error .NotModified
    else
      match findConfigRow db aid a.desired_config_version with
      | none => .ok { version := 1, config := "" }
      | some row => .ok { version := row.version, config := row.config_data }

/-- The `ORDER BY version DESC LIMIT 1` computation in
`update_agent_config`: the next version is `max(existing) + 1`, or `1` when
the agent has no config rows yet. -/
def newVersionFor (db : Db) (aid : String) : Int :=
  match ((db.agent_configs.filter (fun c => c.agent_id == aid)).map
      (fun c => c.version)).max? with
  | none => 1
  | some m => m + 1

/-- `update_agent_config` from `config_mgmt.py` (the operator push
endpoint, unauthenticated): 404 on unknown agent, otherwise append a new
config row at the next version and point the agent's
`desired_config_version` at it. -/
def update_agent_config (db : Db) (aid : String) (payload : String) :
    Except ApiError (Int × Db) :=
  match db.agents.find? (fun a => a.agent_id == aid) with
  | none => .error .NotFound
  | some _ =>
    let v := newVersionFor db aid
    .ok (v,
      { db with
        agent_configs := db.agent_configs ++
          [{ agent_id := aid, version := v, config_data := payload,
             applied_at := none }],
        agents :=
          updateFirst (fun a => a.agent_id == aid)
            (fun a => { a with desired_config_version := v })
            db.agents })

/-- `report_config_applied` from `config_mgmt.py`: authenticate, 403 on id
mismatch, then set `applied_config_version = version` unconditionally on
the authenticated row and stamp `applied_at` on the matching config row if
one exists. -/
def report_config_applied (db : Db) (now : Int) (aid : String)
    (version : Int) (plain : String) : Except ApiError Db :=
  match verify_agent_token db plain with
  | none => .error .Unauthorized
  | some a =>
    if a.agent_id != aid then .error .Forbidden
    else
      .ok { db with
            agents :=
              updateFirst (fun x => verifyToken plain x.agent_token_hash)
                (fun x => { x with applied_config_version := version })
                db.agents,
            agent_configs :=
              updateFirst (fun c => c.agent_id == aid && c.version == version)
                (fun c => { c with applied_at := some now })
                db.agent_configs }

/-- The `thresholds` dict handed to `AlertEngine.check_reading`
(`alerts.py`), with the same `.get(key, default)` semantics: absent keys
fall back to `dry=30`, `wet=85`, `hysteresis=5`. -/
structure Thresholds where
  dry_percent : Option Rat
  wet_percent : Option Rat
  hysteresis : Option Rat
deriving Repr, DecidableEq

/-- `AlertEngine._create_alert`: append a new unresolved alert row
(`id` from the autoincrement counter, `triggered_at` from the server
clock). -/
def createAlert (db : Db) (now : Int) (aid : String) (ch : Int)
    (alert_type : String) (moisture : Rat) (threshold : Rat)
    (location plant_type sensor_name : String) : Db :=
  { db with
    active_alerts := db.active_alerts ++
      [{ id := db.next_alert_id, agent_id := aid, sensor_channel := ch,
         alert_type := alert_type, triggered_at := now, resolved_at := none,
         acknowledged := false, moisture_percent := some moisture,
         threshold := some threshold, location := location,
         plant_type := plant_type, sensor_name := sensor_name }],
    next_alert_id := db.next_alert_id + 1 }

/-- `AlertEngine._resolve_alert`: stamp `resolved_at = now` on the given
row. -/
def resolveAlert (db : Db) (now : Int) (al : ActiveAlert) : Db :=
  { db with
    active_alerts :=
      updateFirst (fun x => x.id == al.id)
        (fun x => { x with resolved_at := some now })
        db.active_alerts }

/-- `AlertEngine.check_reading` from `alerts.py`: look up the first
unresolved alert for (`agent_id`, `sensor_channel`) (any type), then run
the trigger/resolve decision tree —
`if trigger_dry and not active: create too_dry`,
`elif trigger_wet and not active: create too_wet`,
`elif active: resolve on hysteresis`. -/
def check_reading (db : Db) (now : Int) (aid : String) (ch : Int)
    (moisture : Rat) (location plant_type sensor_name : String)
    (th : Thresholds) : Db :=
  let dry := th.dry_percent.getD 30
  let wet := th.wet_percent.getD 85
  let hys := th.hysteresis.getD 5
  let active := db.active_alerts.find? (fun al =>
    al.agent_id == aid && al.sensor_channel == ch && al.resolved_at == none)
  let trigger_dry := moisture < dry
  let trigger_wet := moisture > wet
  let resolve_dry := moisture > dry + hys
  let resolve_wet := moisture < wet - hys
  match active with
  | none =>
    if trigger_dry then
      createAlert db now aid ch "too_dry" moisture dry
        location plant_type sensor_name
    else if trigger_wet then
      createAlert db now aid ch "too_wet" moisture wet
        location plant_type sensor_name
    else db
  | some al =>
    if al.alert_type == "too_dry" && resolve_dry then resolveAlert db now al
    else if al.alert_type == "too_wet" && resolve_wet then resolveAlert db now al
    else db

/-- The offline filter of `check_agent_offline`:
`status == 'active' AND last_heartbeat < cutoff` (a SQL comparison against
`NULL` is not satisfied, so agents that never heartbeated match neither
direction). -/
def isOffline (cutoff : Int) (a : Agent) : Bool :=
  a.status == "active" &&
    (match a.last_heartbeat with
     | none => false
     | some t => decide (t < cutoff))

/-- The online filter of `check_agent_offline`:
`status == 'active' AND last_heartbeat >= cutoff`. -/
def isOnline (cutoff : Int) (a : Agent) : Bool :=
  a.status == "active" &&
    (match a.last_heartbeat with
     | none => false
     | some t => decide (cutoff ≤ t))

/-- The check-before-create query of the sweep: is there an unresolved
`agent_offline` alert for this agent? -/
def hasUnresolvedOffline (alerts : List ActiveAlert) (aid : String) : Bool :=
  alerts.any (fun al =>
    al.agent_id == aid && al.alert_type == "agent_offline" &&
      al.resolved_at == none)

/-- The `agent_offline` row created by the sweep (`sensor_channel = -1`,
`"N/A"` descriptive fields). -/
def mkOfflineAlert (id : Int) (aid : String) (now : Int) : ActiveAlert :=
  { id := id, agent_id := aid, sensor_channel := -1,
    alert_type := "agent_offline", triggered_at := now, resolved_at := none,
    acknowledged := false, moisture_percent := none, threshold := none,
    location := "N/A", plant_type := "N/A", sensor_name := "N/A" }

/-- Assign consecutive autoincrement ids to the offline alerts created in
one sweep, in agent order. -/
def assignOfflineIds (base : Int) (now : Int) : List Agent → List ActiveAlert
  | [] => []
  | a :: rest => mkOfflineAlert base a.agent_id now :: assignOfflineIds (base + 1) now rest

/-- The resolve query of the sweep, per alert row: the alert belongs to an
agent that is back online, is an `agent_offline` alert, and is still
unresolved. -/
def offlineAlertCond (onlineIds : List String) (al : ActiveAlert) : Bool :=
  onlineIds.contains al.agent_id && al.alert_type == "agent_offline" &&
    al.resolved_at == none

/-- `AlertEngine.check_agent_offline` from `alerts.py`.  The session runs
with `autoflush=False`, so both the check-before-create query and the
resolve query see only the rows committed before the sweep
(`db.active_alerts`); the pending inserts land after them on commit.
An alert is created for each offline agent with no unresolved
`agent_offline` alert; every unresolved `agent_offline` alert of an online
agent is resolved. -/
def check_agent_offline (db : Db) (now : Int) (timeout_minutes : Int) : Db :=
  let cutoff := now - timeout_minutes * 60
  let toCreate := (db.agents.filter (isOffline cutoff)).filter
    (fun a => !(hasUnresolvedOffline db.active_alerts a.agent_id))
  let created := assignOfflineIds db.next_alert_id now toCreate
  let onlineIds := (db.agents.filter (isOnline cutoff)).map
    (fun a => a.agent_id)
  let resolved := db.active_alerts.map (fun al =>
    if offlineAlertCond onlineIds al
    then { al with resolved_at := some now } else al)
  { db with
    active_alerts := resolved ++ created,
    next_alert_id := db.next_alert_id + toCreate.length }

/-- `acknowledge_alert` from `alerts.py`: 404 on unknown id, otherwise set
the `acknowledged` flag. -/
def acknowledge_alert (db : Db) (alert_id : Int) : Except ApiError Db :=
  match db.active_alerts.find? (fun al => al.id == alert_id) with
  | none => .error .NotFound
  | some _ =>
    .ok { db with
          active_alerts :=
            updateFirst (fun al => al.id == alert_id)
              (fun al => { al with acknowledged := true })
              db.active_alerts }

/-! ## Agent-side durable buffer (`src/pi-agent/storage.py`) -/

/-- A buffered `Reading` row (`storage.py`); `created_at` is omitted (only
local-only bookkeeping, stripped before transmission and never queried). -/
structure Reading where
  id : Int
  timestamp : Int
  sensor_channel : Int
  sensor_type : String
  raw_value : Int
  moisture_percent : Rat
  location : String
  plant_type : String
  sensor_name : String
  synced : Bool
deriving Repr, DecidableEq

/-- The SQLite `readings` table plus its autoincrement counter. -/
structure Buffer where
  readings : List Reading
  next_id : Int
deriving Repr, DecidableEq

/-- `StorageManager.store_reading`: insert the row with a fresh
autoincrement id and return that id. -/
def store_reading (buf : Buffer) (r : Reading) : Buffer × Int :=
  ({ readings := buf.readings ++ [{ r with id := buf.next_id }],
     next_id := buf.next_id + 1 }, buf.next_id)

/-- `StorageManager.mark_synced`: early-return on an empty id list,
otherwise `UPDATE readings SET synced = 1 WHERE id IN (...)`. -/
def mark_synced (buf : Buffer) (ids : List Int) : Buffer :=
  if ids.isEmpty then buf
  else
    { buf with
      readings := buf.readings.map (fun r =>
        if ids.contains r.id then { r with synced := true } else r) }

/-- `StorageManager.cleanup_old_synced`:
`DELETE FROM readings WHERE synced = 1 AND timestamp < cutoff`, where
`cutoff = now - days*24*3600`; returns the deleted-row count. -/
def cleanup_old_synced (buf : Buffer) (now : Int) (days : Int) :
    Buffer × Nat :=
  let cutoff := now - days * 24 * 3600
  let doomed := fun (r : Reading) => r.synced && decide (r.timestamp < cutoff)
  ({ buf with readings := buf.readings.filter (fun r => !(doomed r)) },
   (buf.readings.filter doomed).length)

/-- `StorageManager.get_unsynced_readings`: unsynced rows, oldest first,
capped at `limit` (the re-ordering sort is by `timestamp ASC`; SQLite's
sort is stable on the insertion order used here). -/
def get_unsynced_readings (buf : Buffer) (limit : Nat) : List Reading :=
  (((buf.readings.filter (fun r => !r.synced)).mergeSort
    (fun a b => a.timestamp ≤ b.timestamp)).take limit)

/-- The state-changing buffer operations (reads are pure). -/
inductive BufOp where
  | store (r : Reading)
  | markSynced (ids : List Int)
  | cleanup (now : Int) (days : Int)
deriving Repr, DecidableEq

/-- One buffer operation, as executed by the agent's scheduler. -/
def applyBufOp (buf : Buffer) : BufOp → Buffer
  | .store r => (store_reading buf r).1
  | .markSynced ids => mark_synced buf ids
  | .cleanup now days => (cleanup_old_synced buf now days).1

/-! ## Coordinator operations as a transition system -/

/-- Every state-changing coordinator endpoint (plus the read-only config
pull, included for completeness as a no-op on the store).  Randomness
(fresh plaintext tokens) and the server clock are carried as operation
arguments. -/
inductive OrchOp where
  | register (now : Int) (plain : String) (req : RegistrationRequest) (fresh : String)
  | heartbeat (now : Int) (aid : String) (plain : String)
  | pullConfig (aid : String) (plain : String)
  | pushConfig (aid : String) (payload : String)
  | reportApplied (now : Int) (aid : String) (version : Int) (plain : String)
  | decommission (aid : String)
  | checkReading (now : Int) (aid : String) (ch : Int) (moisture : Rat)
      (location plant_type sensor_name : String) (th : Thresholds)
  | checkAgentOffline (now : Int) (timeout_minutes : Int)
  | acknowledgeAlert (alert_id : Int)
  | createBootstrapToken (token_hash : String) (expires_at : Int) (max_uses : Option Int)

/-- Execute one coordinator operation; an endpoint that raises an
`HTTPException` rolls back nothing because it mutated nothing — the store
is returned unchanged. -/
def applyOp (db : Db) : OrchOp → Db
  | .register now plain req fresh =>
    match register_agent db now plain req fresh with
    | .ok (_, db') => db'
    | .error _ => db
  | .heartbeat now aid plain =>
    match agent_heartbeat db now aid plain with
    | .ok db' => db'
    | .error _ => db
  | .pullConfig _ _ => db
  | .pushConfig aid payload =>
    match update_agent_config db aid payload with
    | .ok (_, db') => db'
    | .error _ => db
  | .reportApplied now aid version plain =>
    match report_config_applied db now aid version plain with
    | .ok db' => db'
    | .error _ => db
  | .decommission aid =>
    match decommission_agent db aid with
    | .ok db' => db'
    | .error _ => db
  | .checkReading now aid ch m location plant_type sensor_name th =>
    check_reading db now aid ch m location plant_type sensor_name th
  | .checkAgentOffline now tm => check_agent_offline db now tm
  | .acknowledgeAlert alert_id =>
    match acknowledge_alert db alert_id with
    | .ok db' => db'
    | .error _ => db
  | .createBootstrapToken h e m => create_bootstrap_token db h e m

/-- A whole operation history, applied left to right. -/
def applyOps (db : Db) (ops : List OrchOp) : Db :=
  ops.foldl applyOp db

/-- The `desired_config_version` pointer of an agent, read the way every
endpoint reads it (`filter_by(agent_id=...).first()`). -/
def desiredOf (db : Db) (aid : String) : Option Int :=
  (db.agents.find? (fun a => a.agent_id == aid)).map
    (fun a => a.desired_config_version)

/-- The `applied_config_version` pointer of an agent. -/
def appliedOf (db : Db) (aid : String) : Option Int :=
  (db.agents.find? (fun a => a.agent_id == aid)).map
    (fun a => a.applied_config_version)

/-- The `last_heartbeat` column of an agent. -/
def lastHeartbeatOf (db : Db) (aid : String) : Option (Option Int) :=
  (db.agents.find? (fun a => a.agent_id == aid)).map
    (fun a => a.last_heartbeat)

/-- The config-version log of one agent, in table order. -/
def versionsOf (db : Db) (aid : String) : List Int :=
  (db.agent_configs.filter (fun c => c.agent_id == aid)).map
    (fun c => c.version)

/-! ## Two concurrent registrations (the bootstrap-token race)

`register_agent` runs as two database interactions in one request:
the `verify_bootstrap_token` dependency loads the token row and checks
validity, and the handler later writes `used_count = loaded + 1` and
commits.  The engine is created with no row locking and no explicit
isolation level (`database.py`), so between two concurrent requests both
loads can happen before either write.  The phases below model one request's
progress; the write uses the `used_count` loaded at verify time, as the
SQLAlchemy identity map does. -/

/-- The inputs of one in-flight registration request. -/
structure RegSession where
  plain : String
  req : RegistrationRequest
  fresh : String

/-- Progress of one in-flight registration request. -/
inductive RegPhase where
  | checked (bt : BootstrapToken)
  | finished (success : Bool)
deriving Repr, DecidableEq

/-- First interaction: the `verify_bootstrap_token` dependency — read the
token row from the current committed state and check validity. -/
def regVerifyStep (db : Db) (s : RegSession) (now : Int) : RegPhase :=
  match verify_bootstrap_token db s.plain now with
  | .error _ => .finished false
  | .ok bt => .checked bt

/-- Second interaction: the handler body — conflict check, agent insert,
and the `used_count` write-back computed from the row loaded at verify
time (`bootstrap.used_count += 1` on the session-local object). -/
def regCommitStep (db : Db) (s : RegSession) (bt : BootstrapToken) :
    Db × RegPhase :=
  if db.agents.any (fun a => a.agent_id == s.req.agent_id) then
    (db, .finished false)
  else
    ({ db with
       agents := db.agents ++ [mkAgent s.req (hashToken s.fresh)],
       bootstrap_tokens :=
         updateFirst (fun t => verifyToken s.plain t.token_hash)
           (fun t => { t with used_count := bt.used_count + 1 })
           db.bootstrap_tokens },
     .finished true)

/-! ## Helper lemmas about `updateFirst` and row lookups -/

theorem find?_updateFirst_self (p q : α → Bool) (f : α → α) (l : List α)
    (a : α) (hqf : ∀ x, q (f x) = q x)
    (hp : l.find? p = some a) (hq : l.find? q = some a) :
    (updateFirst p f l).find? q = some (f a) := by
  induction l with
  | nil => simp at hp
  | cons x xs ih =>
    by_cases hpx : p x
    · have hax : a = x := by
        rw [List.find?_cons_of_pos _ hpx] at hp
        exact (Option.some.inj hp).symm
      by_cases hqx : q x
      · rw [show updateFirst p f (x :: xs) = f x :: xs by simp [updateFirst, hpx]]
        rw [List.find?_cons_of_pos _ (by rw [hqf]; exact hqx), hax]
      · exfalso
        rw [List.find?_cons_of_neg _ hqx] at hq
        have := List.find?_some hq
        rw [hax] at this
        exact hqx this
    · rw [List.find?_cons_of_neg _ hpx] at hp
      by_cases hqx : q x
      · exfalso
        rw [List.find?_cons_of_pos _ hqx] at hq
        have hax : a = x := (Option.some.inj hq).symm
        have := List.find?_some hp
        rw [hax] at this
        exact hpx this
      · rw [List.find?_cons_of_neg _ hqx] at hq
        rw [show updateFirst p f (x :: xs) = x :: updateFirst p f xs by
          simp [updateFirst, hpx]]
        rw [List.find?_cons_of_neg _ hqx]
        exact ih hp hq

theorem find?_updateFirst_of_ne (p q : α → Bool) (f : α → α) (l : List α)
    (hqf : ∀ x, q (f x) = q x)
    (hpq : ∀ x, p x = true → q x = false) :
    (updateFirst p f l).find? q = l.find? q := by
  induction l with
  | nil => rfl
  | cons x xs ih =>
    by_cases hpx : p x
    · rw [show updateFirst p f (x :: xs) = f x :: xs by simp [updateFirst, hpx]]
      have hqx : q x = false := hpq x hpx
      rw [List.find?_cons_of_neg _ (by rw [hqf]; simp [hqx]),
        List.find?_cons_of_neg _ (by simp [hqx])]
    · rw [show updateFirst p f (x :: xs) = x :: updateFirst p f xs by
        simp [updateFirst, hpx]]
      by_cases hqx : q x
      · rw [List.find?_cons_of_pos _ hqx, List.find?_cons_of_pos _ hqx]
      · rw [List.find?_cons_of_neg _ hqx, List.find?_cons_of_neg _ hqx]
        exact ih

theorem find?_map_updateFirst (p : α → Bool) (f : α → α) (q : α → Bool)
    (g : α → β) (l : List α)
    (hq : ∀ x, q (f x) = q x) (hg : ∀ x, g (f x) = g x) :
    ((updateFirst p f l).find? q).map g = (l.find? q).map g := by
  induction l with
  | nil => rfl
  | cons x xs ih =>
    by_cases hpx : p x
    · rw [show updateFirst p f (x :: xs) = f x :: xs by simp [updateFirst, hpx]]
      by_cases hqx : q x
      · rw [List.find?_cons_of_pos _ (by rw [hq]; exact hqx),
          List.find?_cons_of_pos _ hqx]
        simp [hg]
      · rw [List.find?_cons_of_neg _ (by rw [hq]; simp [hqx]),
          List.find?_cons_of_neg _ hqx]
    · rw [show updateFirst p f (x :: xs) = x :: updateFirst p f xs by
        simp [updateFirst, hpx]]
      by_cases hqx : q x
      · rw [List.find?_cons_of_pos _ hqx, List.find?_cons_of_pos _ hqx]
      · rw [List.find?_cons_of_neg _ hqx, List.find?_cons_of_neg _ hqx]
        exact ih

theorem filter_map_updateFirst (p : α → Bool) (f : α → α) (q : α → Bool)
    (g : α → β) (l : List α)
    (hq : ∀ x, q (f x) = q x) (hg : ∀ x, g (f x) = g x) :
    ((updateFirst p f l).filter q).map g = (l.filter q).map g := by
  induction l with
  | nil => rfl
  | cons x xs ih =>
    by_cases hpx : p x
    · rw [show updateFirst p f (x :: xs) = f x :: xs by simp [updateFirst, hpx]]
      by_cases hqx : q x
      · simp [List.filter_cons, hq, hg, hqx]
      · simp [List.filter_cons, hq, hqx]
    · rw [show updateFirst p f (x :: xs) = x :: updateFirst p f xs by
        simp [updateFirst, hpx]]
      by_cases hqx : q x
      · simp only [List.filter_cons, hqx, if_pos, List.map_cons]
        rw [ih]
      · simp only [List.filter_cons, hqx]
        exact ih

theorem exists_set_of_updateFirst (p : α → Bool) (f : α → α) (l : List α)
    (a : α) (h : l.find? p = some a) :
    ∃ i, l[i]? = some a ∧ updateFirst p f l = l.set i (f a) := by
  induction l with
  | nil => simp at h
  | cons x xs ih =>
    by_cases hpx : p x
    · refine ⟨0, ?_, ?_⟩
      · rw [List.find?_cons_of_pos _ hpx] at h
        simpa using (Option.some.inj h).symm ▸ rfl
      · rw [List.find?_cons_of_pos _ hpx] at h
        have hax : a = x := (Option.some.inj h).symm
        simp [updateFirst, hpx, hax, List.set]
    · rw [List.find?_cons_of_neg _ hpx] at h
      obtain ⟨i, h1, h2⟩ := ih h
      refine ⟨i + 1, by simpa using h1, ?_⟩
      simp [updateFirst, hpx, h2, List.set]

theorem map_eq_self_of_forall (f : α → α) (l : List α)
    (h : ∀ x ∈ l, f x = x) : l.map f = l := by
  induction l with
  | nil => rfl
  | cons x xs ih =>
    simp only [List.map_cons, h x (by simp)]
    rw [ih (fun y hy => h y (by simp [hy]))]

/-- The primary-key invariant of the `agents` table: `agent_id` is unique. -/
def agentIdsNodup (db : Db) : Prop :=
  (db.agents.map (fun a => a.agent_id)).Nodup

theorem eq_of_mem_same_agent_id {l : List Agent}
    (hnd : (l.map (fun a => a.agent_id)).Nodup)
    {a b : Agent} (ha : a ∈ l) (hb : b ∈ l)
    (hid : a.agent_id = b.agent_id) : a = b :=
  List.inj_on_of_nodup_map hnd ha hb hid

theorem find?_agent_id_of_mem {l : List Agent}
    (hnd : (l.map (fun a => a.agent_id)).Nodup)
    {a : Agent} (hmem : a ∈ l) :
    l.find? (fun x => x.agent_id == a.agent_id) = some a := by
  have hsome : (l.find? (fun x => x.agent_id == a.agent_id)).isSome := by
    rw [List.find?_isSome]
    exact ⟨a, hmem, by simp⟩
  obtain ⟨b, hb⟩ := Option.isSome_iff_exists.mp hsome
  have hpb : b.agent_id = a.agent_id := by
    have := List.find?_some hb
    simpa using this
  have hbmem : b ∈ l := List.mem_of_find?_eq_some hb
  rw [hb, eq_of_mem_same_agent_id hnd hbmem hmem hpb]

theorem findBootstrap_ok {toks : List BootstrapToken} {plain : String}
    {now : Int} {bt : BootstrapToken}
    (h : findBootstrap toks plain now = .ok bt) :
    toks.find? (fun t => verifyToken plain t.token_hash) = some bt ∧
      bt.is_valid now = true := by
  induction toks with
  | nil => simp [findBootstrap] at h
  | cons x xs ih =>
    by_cases hvx : verifyToken plain x.token_hash
    · rw [findBootstrap, if_pos hvx] at h
      by_cases hval : x.is_valid now
      · rw [if_pos hval] at h
        have hbx : x = bt := Except.ok.inj h
        subst hbx
        exact ⟨List.find?_cons_of_pos _ hvx, hval⟩
      · rw [if_neg hval] at h
        exact absurd h (by simp)
    · rw [findBootstrap, if_neg hvx] at h
      obtain ⟨h1, h2⟩ := ih h
      refine ⟨?_, h2⟩
      rw [List.find?_cons_of_neg (p := fun t => verifyToken plain t.token_hash) xs hvx]
      exact h1

/-! ## C4 — bootstrap-token validity -/

/-- A non-expired token with `max_uses = 0` and `used_count = 0`. -/
def c4Token : BootstrapToken :=
  { token_hash := "h#x", expires_at := 100, used_count := 0, max_uses := some 0 }

/-- C4 counterexample: the claim says a token with non-null `max_uses = 0`
and `used_count ≥ max_uses` is invalid, but `is_valid` follows Python
truthiness (`if self.max_uses and ...`), so `max_uses = 0` is skipped and
the token counts as valid: `is_valid` disagrees with the spec's validity
predicate on this token. -/
theorem c4_zero_max_uses_counterexample :
    c4Token.is_valid 0 = true ∧ specTokenValid c4Token 0 = false := by
  decide

/-- C4 (amended): a token is valid iff it is not expired and `max_uses` is
null **or zero** or `used_count < max_uses`; a `max_uses` of `0` is treated
as unlimited because `0` is falsy in Python. -/
theorem is_valid_characterization (t : BootstrapToken) (now : Int) :
    t.is_valid now = true ↔
      (t.is_expired now = false ∧
        (match t.max_uses with
         | none => True
         | some m => m = 0 ∨ t.used_count < m)) := by
  cases hmu : t.max_uses with
  | none =>
    cases hexp : t.is_expired now <;>
      simp [BootstrapToken.is_valid, intOptionTruthy, hmu, hexp]
  | some m =>
    cases hexp : t.is_expired now
    · by_cases hm : m = 0
      · subst hm
        simp [BootstrapToken.is_valid, intOptionTruthy, hmu, hexp]
      · simp [BootstrapToken.is_valid, intOptionTruthy, hmu, hexp, hm, bne]
    · simp [BootstrapToken.is_valid, intOptionTruthy, hmu, hexp]

/-! ## C2 — alert hysteresis on the sequence 35, 25, 32, 36 -/

/-- The thresholds dict of the claim: `dry=30, wet=85, hysteresis=5`. -/
def c2Thresholds : Thresholds :=
  { dry_percent := some 30, wet_percent := some 85, hysteresis := some 5 }

/-- State after processing moisture 35 at time 1. -/
def c2s1 : Db := check_reading Db.empty 1 "pi-01" 0 35 "loc" "plant" "sens" c2Thresholds

/-- State after processing moisture 25 at time 2. -/
def c2s2 : Db := check_reading c2s1 2 "pi-01" 0 25 "loc" "plant" "sens" c2Thresholds

/-- State after processing moisture 32 at time 3. -/
def c2s3 : Db := check_reading c2s2 3 "pi-01" 0 32 "loc" "plant" "sens" c2Thresholds

/-- State after processing moisture 36 at time 4. -/
def c2s4 : Db := check_reading c2s3 4 "pi-01" 0 36 "loc" "plant" "sens" c2Thresholds

/-- C2: with `dry=30, wet=85, hysteresis=5` and no pre-existing alert, the
sequence 35, 25, 32, 36 leaves the store untouched at 35, creates exactly
one unresolved `too_dry` alert at 25, changes nothing at 32 (dead zone),
and resolves that one alert at 36 without creating another (the
autoincrement counter shows exactly one alert was ever created). -/
theorem alert_hysteresis_sequence :
    c2s1 = Db.empty ∧
    c2s2.active_alerts =
      [{ id := 1, agent_id := "pi-01", sensor_channel := 0,
         alert_type := "too_dry", triggered_at := 2, resolved_at := none,
         acknowledged := false, moisture_percent := some 25,
         threshold := some 30, location := "loc", plant_type := "plant",
         sensor_name := "sens" }] ∧
    c2s3 = c2s2 ∧
    c2s4.active_alerts =
      [{ id := 1, agent_id := "pi-01", sensor_channel := 0,
         alert_type := "too_dry", triggered_at := 2, resolved_at := some 4,
         acknowledged := false, moisture_percent := some 25,
         threshold := some 30, location := "loc", plant_type := "plant",
         sensor_name := "sens" }] ∧
    c2s4.next_alert_id = 2 := by
  have h1 : c2s1 = Db.empty := by rfl
  have h2 : c2s2 =
      { agents := [], bootstrap_tokens := [], agent_configs := [],
        active_alerts :=
          [{ id := 1, agent_id := "pi-01", sensor_channel := 0,
             alert_type := "too_dry", triggered_at := 2, resolved_at := none,
             acknowledged := false, moisture_percent := some 25,
             threshold := some 30, location := "loc", plant_type := "plant",
             sensor_name := "sens" }],
        next_alert_id := 2 } := by rfl
  have h3 : c2s3 = c2s2 := by
    show check_reading c2s2 3 "pi-01" 0 32 "loc" "plant" "sens" c2Thresholds = c2s2
    rw [check_reading, h2]
    norm_num [c2Thresholds, List.find?]
    exact fun h => absurd h (by decide)
  have h4 : c2s4 =
      { agents := [], bootstrap_tokens := [], agent_configs := [],
        active_alerts :=
          [{ id := 1, agent_id := "pi-01", sensor_channel := 0,
             alert_type := "too_dry", triggered_at := 2, resolved_at := some 4,
             acknowledged := false, moisture_percent := some 25,
             threshold := some 30, location := "loc", plant_type := "plant",
             sensor_name := "sens" }],
        next_alert_id := 2 } := by
    show check_reading c2s3 4 "pi-01" 0 36 "loc" "plant" "sens" c2Thresholds = _
    rw [h3, check_reading, h2]
    norm_num [c2Thresholds, List.find?, resolveAlert, updateFirst]
  refine ⟨h1, by rw [h2], h3, by rw [h4], by rw [h4]⟩

/-! ## C1 — two concurrent registrations against a `max_uses = 1` token -/

/-- A fresh, unexpired bootstrap token with `max_uses = 1`, `used_count = 0`. -/
def c1Token : BootstrapToken :=
  { token_hash := hashToken "boot", expires_at := 1000, used_count := 0,
    max_uses := some 1 }

/-- Store holding only that token and no agents. -/
def c1Db : Db := { Db.empty with bootstrap_tokens := [c1Token] }

/-- First concurrent registration request (`pi-01`). -/
def c1Sess1 : RegSession :=
  { plain := "boot", req := { agent_id := "pi-01", hostname := "host1", hardware := "rpi4" },
    fresh := "agtok1" }

/-- Second concurrent registration request (`pi-02`). -/
def c1Sess2 : RegSession :=
  { plain := "boot", req := { agent_id := "pi-02", hostname := "host2", hardware := "rpi4" },
    fresh := "agtok2" }

/-- Store after the first request's handler commit. -/
def c1Db1 : Db := (regCommitStep c1Db c1Sess1 c1Token).1

/-- Store after the second request's handler commit. -/
def c1Db2 : Db := (regCommitStep c1Db1 c1Sess2 c1Token).1

/-- C1 fails on the code: under the interleaving
verify₁, verify₂, commit₁, commit₂ — possible because the validity check
and the `used_count` write-back run as two separate database interactions
with no row lock, transaction-level guard, or compare-and-swap — both
requests pass validation against `used_count = 0`, both registrations
succeed (two agents are created from a `max_uses = 1` token), and the
lost update even leaves `used_count = 1`. -/
theorem bootstrap_token_race_both_succeed :
    regVerifyStep c1Db c1Sess1 0 = .checked c1Token ∧
    regVerifyStep c1Db c1Sess2 0 = .checked c1Token ∧
    (regCommitStep c1Db c1Sess1 c1Token).2 = .finished true ∧
    (regCommitStep c1Db1 c1Sess2 c1Token).2 = .finished true ∧
    c1Db2.agents.length = 2 ∧
    c1Db2.bootstrap_tokens =
      [{ token_hash := hashToken "boot", expires_at := 1000,
         used_count := 1, max_uses := some 1 }] := by
  refine ⟨by rfl, by rfl, by rfl, by rfl, by rfl, by rfl⟩

/-! ## Inversion lemmas for the Except-returning endpoints -/

theorem register_agent_ok {db : Db} {now : Int} {plain : String}
    {req : RegistrationRequest} {fresh s : String} {db' : Db}
    (h : register_agent db now plain req fresh = .ok (s, db')) :
    s = fresh ∧
    db.agents.any (fun a => a.agent_id == req.agent_id) = false ∧
    db' = { db with
            agents := db.agents ++ [mkAgent req (hashToken fresh)],
            bootstrap_tokens :=
              updateFirst (fun bt => verifyToken plain bt.token_hash)
                (fun bt => { bt with used_count := bt.used_count + 1 })
                db.bootstrap_tokens } := by
  unfold register_agent at h
  cases hv : verify_bootstrap_token db plain now with
  | error e => rw [hv] at h; exact absurd h (by simp)
  | ok bt =>
    rw [hv] at h
    by_cases hex : db.agents.any (fun a => a.agent_id == req.agent_id)
    · rw [if_pos hex] at h
      exact absurd h (by simp)
    · rw [if_neg hex] at h
      have := Except.ok.inj h
      refine ⟨congrArg Prod.fst this |>.symm, by simpa using hex, ?_⟩
      exact (congrArg Prod.snd this).symm

theorem agent_heartbeat_ok {db : Db} {now : Int} {aid plain : String}
    {db' : Db} (h : agent_heartbeat db now aid plain = .ok db') :
    ∃ a, verify_agent_token db plain = some a ∧ a.agent_id = aid ∧
      db' = { db with
              agents :=
                updateFirst (fun x => verifyToken plain x.agent_token_hash)
                  (fun x => { x with last_heartbeat := some now })
                  db.agents } := by
  unfold agent_heartbeat at h
  cases hv : verify_agent_token db plain with
  | none => rw [hv] at h; exact absurd h (by simp)
  | some a =>
    simp only [hv] at h
    by_cases hid : a.agent_id = aid
    · refine ⟨a, rfl, hid, ?_⟩
      rw [if_neg (by simp [hid])] at h
      exact (Except.ok.inj h).symm
    · rw [if_pos (by simp [hid])] at h
      exact absurd h (by simp)

theorem decommission_agent_ok {db : Db} {aid : String} {db' : Db}
    (h : decommission_agent db aid = .ok db') :
    ∃ a, db.agents.find? (fun x => x.agent_id == aid) = some a ∧
      db' = { db with
              agents :=
                updateFirst (fun x => x.agent_id == aid)
                  (fun x => { x with status := "decommissioned" })
                  db.agents } := by
  unfold decommission_agent at h
  cases hf : db.agents.find? (fun x => x.agent_id == aid) with
  | none => rw [hf] at h; exact absurd h (by simp)
  | some a =>
    rw [hf] at h
    exact ⟨a, rfl, (Except.ok.inj h).symm⟩

theorem update_agent_config_ok {db : Db} {aid payload : String} {v : Int}
    {db' : Db} (h : update_agent_config db aid payload = .ok (v, db')) :
    (∃ a, db.agents.find? (fun x => x.agent_id == aid) = some a) ∧
    v = newVersionFor db aid ∧
    db' = { db with
            agent_configs := db.agent_configs ++
              [{ agent_id := aid, version := newVersionFor db aid,
                 config_data := payload, applied_at := none }],
            agents :=
              updateFirst (fun a => a.agent_id == aid)
                (fun a => { a with desired_config_version := newVersionFor db aid })
                db.agents } := by
  unfold update_agent_config at h
  cases hf : db.agents.find? (fun x => x.agent_id == aid) with
  | none => rw [hf] at h; exact absurd h (by simp)
  | some a =>
    rw [hf] at h
    have := Except.ok.inj h
    exact ⟨⟨a, rfl⟩, (congrArg Prod.fst this).symm, (congrArg Prod.snd this).symm⟩

theorem report_config_applied_ok {db : Db} {now : Int} {aid : String}
    {version : Int} {plain : String} {db' : Db}
    (h : report_config_applied db now aid version plain = .ok db') :
    ∃ a, verify_agent_token db plain = some a ∧ a.agent_id = aid ∧
      db' = { db with
              agents :=
                updateFirst (fun x => verifyToken plain x.agent_token_hash)
                  (fun x => { x with applied_config_version := version })
                  db.agents,
              agent_configs :=
                updateFirst (fun c => c.agent_id == aid && c.version == version)
                  (fun c => { c with applied_at := some now })
                  db.agent_configs } := by
  unfold report_config_applied at h
  cases hv : verify_agent_token db plain with
  | none => rw [hv] at h; exact absurd h (by simp)
  | some a =>
    simp only [hv] at h
    by_cases hid : a.agent_id = aid
    · refine ⟨a, rfl, hid, ?_⟩
      rw [if_neg (by simp [hid])] at h
      exact (Except.ok.inj h).symm
    · rw [if_pos (by simp [hid])] at h
      exact absurd h (by simp)

theorem acknowledge_alert_ok {db : Db} {alert_id : Int} {db' : Db}
    (h : acknowledge_alert db alert_id = .ok db') :
    db' = { db with
            active_alerts :=
              updateFirst (fun al => al.id == alert_id)
                (fun al => { al with acknowledged := true })
                db.active_alerts } := by
  unfold acknowledge_alert at h
  cases hf : db.active_alerts.find? (fun al => al.id == alert_id) with
  | none => rw [hf] at h; exact absurd h (by simp)
  | some a =>
    rw [hf] at h
    exact (Except.ok.inj h).symm

theorem check_reading_agents (db : Db) (now : Int) (aid : String) (ch : Int)
    (m : Rat) (location plant_type sensor_name : String) (th : Thresholds) :
    (check_reading db now aid ch m location plant_type sensor_name th).agents
      = db.agents := by
  unfold check_reading createAlert resolveAlert
  cases db.active_alerts.find? (fun al =>
      al.agent_id == aid && al.sensor_channel == ch && al.resolved_at == none) with
  | none =>
    dsimp only
    split
    · rfl
    · split <;> rfl
  | some al =>
    dsimp only
    split
    · rfl
    · split <;> rfl

/-! ## C3 — who changes `applied_config_version` -/

/-- Discriminator for the `ReportApplied` endpoint. -/
def OrchOp.isReport : OrchOp → Bool
  | .reportApplied _ _ _ _ => true
  | _ => false

/-- An agent whose `applied_config_version` is already 5. -/
def c3Agent : Agent :=
  { agent_id := "pi-01", hostname := "host", hardware := "rpi4",
    agent_token_hash := hashToken "atok", last_heartbeat := none,
    last_sync_at := none, status := "active", desired_config_version := 6,
    applied_config_version := 5 }

/-- Store holding only that agent. -/
def c3Db : Db := { Db.empty with agents := [c3Agent] }

/-- C3 counterexample: `report_config_applied` assigns the reported version
unconditionally, so reporting version 3 while `applied_config_version = 5`
succeeds and lowers the pointer to 3 — `applied_config_version` is not
monotone. -/
theorem report_applied_can_decrease :
    appliedOf c3Db "pi-01" = some 5 ∧
    (report_config_applied c3Db 10 "pi-01" 3 "atok").toOption.map
      (fun d => appliedOf d "pi-01") = some (some 3) := by
  exact ⟨by rfl, by rfl⟩

/-- C3 (amended): for an existing agent the only operation that changes
`applied_config_version` is an explicit `ReportApplied` call (registration
initializes it to 0 for a previously absent agent id), and `ReportApplied`
sets it to the reported version unconditionally — including a version lower
than the current one. -/
theorem applied_version_changed_only_by_report :
    (∀ (db : Db) (op : OrchOp) (aid : String), op.isReport = false →
       appliedOf (applyOp db op) aid = appliedOf db aid ∨
         (appliedOf db aid = none ∧ appliedOf (applyOp db op) aid = some 0)) ∧
    (∀ (db : Db) (now : Int) (aid : String) (version : Int) (plain : String)
       (db' : Db), agentIdsNodup db →
       report_config_applied db now aid version plain = .ok db' →
       appliedOf db' aid = some version) := by
  constructor
  · intro db op aid hop
    cases op with
    | register now plain req fresh =>
      cases hreg : register_agent db now plain req fresh with
      | error e =>
        left
        show appliedOf (match register_agent db now plain req fresh with
          | .ok (_, db') => db' | .error _ => db) aid = _
        rw [hreg]
      | ok p =>
        obtain ⟨s, db'⟩ := p
        obtain ⟨-, -, hdb⟩ := register_agent_ok hreg
        have happ : applyOp db (OrchOp.register now plain req fresh) = db' := by
          show (match register_agent db now plain req fresh with
            | .ok (_, db') => db' | .error _ => db) = db'
          rw [hreg]
        rw [happ, hdb]
        unfold appliedOf
        rw [show ({ db with
            agents := db.agents ++ [mkAgent req (hashToken fresh)],
            bootstrap_tokens := updateFirst
              (fun bt => verifyToken plain bt.token_hash)
              (fun bt => { bt with used_count := bt.used_count + 1 })
              db.bootstrap_tokens } : Db).agents
          = db.agents ++ [mkAgent req (hashToken fresh)] from rfl]
        rw [List.find?_append]
        cases hf : db.agents.find? (fun a => a.agent_id == aid) with
        | some a => left; rfl
        | none =>
          by_cases hq : (req.agent_id == aid) = true
          · right
            refine ⟨rfl, ?_⟩
            simp [List.find?, hq, mkAgent]
          · left
            have hq' : ((mkAgent req (hashToken fresh)).agent_id == aid) = false := by
              simp only [mkAgent]
              simpa using hq
            simp [List.find?, hq']
    | heartbeat now aid' plain =>
      show appliedOf (match agent_heartbeat db now aid' plain with
        | .ok db' => db' | .error _ => db) aid = _ ∨ _
      cases hh : agent_heartbeat db now aid' plain with
      | error e => exact Or.inl rfl
      | ok db' =>
        obtain ⟨a, -, -, hdb⟩ := agent_heartbeat_ok hh
        subst hdb
        left
        exact find?_map_updateFirst _ _ _ _ db.agents
          (fun x => rfl) (fun x => rfl)
    | pullConfig aid' plain => exact Or.inl rfl
    | pushConfig aid' payload =>
      show appliedOf (match update_agent_config db aid' payload with
        | .ok (_, db') => db' | .error _ => db) aid = _ ∨ _
      cases hu : update_agent_config db aid' payload with
      | error e => exact Or.inl rfl
      | ok p =>
        obtain ⟨v, db'⟩ := p
        obtain ⟨-, -, hdb⟩ := update_agent_config_ok hu
        subst hdb
        left
        exact find?_map_updateFirst _ _ _ _ db.agents
          (fun x => rfl) (fun x => rfl)
    | reportApplied now aid' version plain => simp [OrchOp.isReport] at hop
    | decommission aid' =>
      show appliedOf (match decommission_agent db aid' with
        | .ok db' => db' | .error _ => db) aid = _ ∨ _
      cases hd : decommission_agent db aid' with
      | error e => exact Or.inl rfl
      | ok db' =>
        obtain ⟨a, -, hdb⟩ := decommission_agent_ok hd
        subst hdb
        left
        exact find?_map_updateFirst _ _ _ _ db.agents
          (fun x => rfl) (fun x => rfl)
    | checkReading now aid' ch m location plant_type sensor_name th =>
      left
      show appliedOf (check_reading db now aid' ch m location plant_type sensor_name th) aid
        = appliedOf db aid
      unfold appliedOf
      rw [check_reading_agents]
    | checkAgentOffline now tm => exact Or.inl rfl
    | acknowledgeAlert alert_id =>
      show appliedOf (match acknowledge_alert db alert_id with
        | .ok db' => db' | .error _ => db) aid = _ ∨ _
      cases ha : acknowledge_alert db alert_id with
      | error e => exact Or.inl rfl
      | ok db' =>
        have hdb := acknowledge_alert_ok ha
        subst hdb
        exact Or.inl rfl
    | createBootstrapToken h e m => exact Or.inl rfl
  · intro db now aid version plain db' hnd h
    obtain ⟨a, hv, hid, hdb⟩ := report_config_applied_ok h
    subst hdb
    have hv' : List.find? (fun x => verifyToken plain x.agent_token_hash)
        db.agents = some a := hv
    have hmem : a ∈ db.agents := List.mem_of_find?_eq_some hv'
    have hfid : db.agents.find? (fun x => x.agent_id == a.agent_id) = some a :=
      find?_agent_id_of_mem hnd hmem
    rw [hid] at hfid
    unfold appliedOf
    rw [show ({ db with
        agents := updateFirst (fun x => verifyToken plain x.agent_token_hash)
          (fun x => { x with applied_config_version := version }) db.agents,
        agent_configs := updateFirst
          (fun c => c.agent_id == aid && c.version == version)
          (fun c => { c with applied_at := some now }) db.agent_configs } : Db).agents
      = updateFirst (fun x => verifyToken plain x.agent_token_hash)
          (fun x => { x with applied_config_version := version }) db.agents from rfl]
    rw [find?_updateFirst_self
      (fun x => verifyToken plain x.agent_token_hash)
      (fun x => x.agent_id == aid)
      (fun x => { x with applied_config_version := version })
      db.agents a (fun x => rfl) hv' hfid]
    rfl

/-- Result of the witness `ReportApplied` call on `c3Db`. -/
def c3ReportedDb : Db :=
  { c3Db with agents := [{ c3Agent with applied_config_version := 3 }] }

/-- Witness for C3's amended theorem at concrete inputs: a read-only config
pull leaves the pointer at 5, and a `ReportApplied` of version 3
sets it to 3. -/
theorem applied_version_changed_only_by_report_witness :
    (appliedOf (applyOp c3Db (.pullConfig "pi-01" "atok")) "pi-01" =
        appliedOf c3Db "pi-01" ∨
      (appliedOf c3Db "pi-01" = none ∧
        appliedOf (applyOp c3Db (.pullConfig "pi-01" "atok")) "pi-01" = some 0)) ∧
    appliedOf c3ReportedDb "pi-01" = some 3 := by
  constructor
  · exact applied_version_changed_only_by_report.1 c3Db
      (.pullConfig "pi-01" "atok") "pi-01" rfl
  · exact applied_version_changed_only_by_report.2 c3Db 10 "pi-01" 3 "atok"
      c3ReportedDb (by simp [agentIdsNodup, c3Db, Db.empty]) (by rfl)

/-! ## C5 — the config pull endpoint -/

/-- C5: `PullConfig` returns `NotModified` exactly when
`applied_config_version ≥ desired_config_version`; otherwise it serves the
`AgentConfig` row at `desired_config_version` (whose version therefore
equals `desired_config_version`), and falls back to an empty
`version = 1` config instead of failing when that row is missing. -/
theorem pull_config_spec (db : Db) (aid plain : String) (a : Agent)
    (hv : verify_agent_token db plain = some a) (hid : a.agent_id = aid) :
    (a.applied_config_version ≥ a.desired_config_version →
       get_agent_config db aid plain = .error .NotModified) ∧
    (a.applied_config_version < a.desired_config_version →
       (∀ row, findConfigRow db aid a.desired_config_version = some row →
          get_agent_config db aid plain =
            .ok { version := row.version, config := row.config_data } ∧
          row.version = a.desired_config_version) ∧
       (findConfigRow db aid a.desired_config_version = none →
          get_agent_config db aid plain = .ok { version := 1, config := "" })) := by
  constructor
  · intro hge
    unfold get_agent_config
    simp only [hv]
    rw [if_neg (by simp [hid]), if_pos hge]
  · intro hlt
    constructor
    · intro row hrow
      constructor
      · unfold get_agent_config
        simp only [hv]
        rw [if_neg (by simp [hid]), if_neg (by omega)]
        simp only [hrow]
      · have hrow' : List.find?
            (fun c => c.agent_id == aid && c.version == a.desired_config_version)
            db.agent_configs = some row := hrow
        have h1 := List.find?_some hrow'
        simp only [Bool.and_eq_true, beq_iff_eq] at h1
        exact h1.2
    · intro hnone
      unfold get_agent_config
      simp only [hv]
      rw [if_neg (by simp [hid]), if_neg (by omega)]
      simp only [hnone]

/-- An agent with a pending config update (`applied 0 < desired 1`). -/
def c5Agent : Agent :=
  { agent_id := "pi-01", hostname := "host", hardware := "rpi4",
    agent_token_hash := hashToken "atok", last_heartbeat := none,
    last_sync_at := none, status := "active", desired_config_version := 1,
    applied_config_version := 0 }

/-- The config row at the desired version. -/
def c5Row : AgentConfigRow :=
  { agent_id := "pi-01", version := 1, config_data := "cfg", applied_at := none }

/-- Store for the C5 witness. -/
def c5Db : Db :=
  { Db.empty with agents := [c5Agent], agent_configs := [c5Row] }

/-- Witness for C5 at concrete inputs: the pending row is served. -/
theorem pull_config_spec_witness :
    get_agent_config c5Db "pi-01" "atok" = .ok { version := 1, config := "cfg" } :=
  (((pull_config_spec c5Db "pi-01" "atok" c5Agent (by rfl) rfl).2
      (by decide)).1 c5Row (by rfl)).1

/-! ## C7 — registration: conflict or consume exactly one use -/

/-- C7: given a presented bootstrap token that verifies as `bt`,
`RegisterAgent` fails with `Conflict` when the agent id already exists —
and then the store is unchanged — and otherwise appends the new agent row
carrying the hash of the freshly minted token, touches no other table, and
increments exactly the matched bootstrap token's `used_count` by one
(the token table is rewritten at that single index). -/
theorem register_agent_spec (db : Db) (now : Int) (plain : String)
    (req : RegistrationRequest) (fresh : String) (bt : BootstrapToken)
    (hv : verify_bootstrap_token db plain now = .ok bt) :
    (db.agents.any (fun a => a.agent_id == req.agent_id) = true →
       register_agent db now plain req fresh = .error .Conflict ∧
       applyOp db (.register now plain req fresh) = db) ∧
    (db.agents.any (fun a => a.agent_id == req.agent_id) = false →
       ∃ db', register_agent db now plain req fresh = .ok (fresh, db') ∧
         db'.agents = db.agents ++ [mkAgent req (hashToken fresh)] ∧
         (mkAgent req (hashToken fresh)).agent_token_hash = hashToken fresh ∧
         db'.agent_configs = db.agent_configs ∧
         db'.active_alerts = db.active_alerts ∧
         ∃ i, db.bootstrap_tokens[i]? = some bt ∧
           db'.bootstrap_tokens = db.bootstrap_tokens.set i
             { bt with used_count := bt.used_count + 1 }) := by
  constructor
  · intro hex
    have hconf : register_agent db now plain req fresh = .error .Conflict := by
      unfold register_agent
      simp only [hv]
      rw [if_pos hex]
    refine ⟨hconf, ?_⟩
    show (match register_agent db now plain req fresh with
      | .ok (_, db') => db' | .error _ => db) = db
    rw [hconf]
  · intro hex
    refine ⟨{ db with
        agents := db.agents ++ [mkAgent req (hashToken fresh)],
        bootstrap_tokens :=
          updateFirst (fun t => verifyToken plain t.token_hash)
            (fun t => { t with used_count := t.used_count + 1 })
            db.bootstrap_tokens }, ?_, rfl, rfl, rfl, rfl, ?_⟩
    · unfold register_agent
      simp only [hv]
      rw [if_neg (by simp [hex])]
    · have hfind := (findBootstrap_ok hv).1
      obtain ⟨i, hget, hupd⟩ := exists_set_of_updateFirst
        (fun t => verifyToken plain t.token_hash)
        (fun t => { t with used_count := t.used_count + 1 })
        db.bootstrap_tokens bt hfind
      exact ⟨i, hget, hupd⟩

/-- A fresh token with `max_uses = 5` for the C7 witness. -/
def c7Token : BootstrapToken :=
  { token_hash := hashToken "boot", expires_at := 1000, used_count := 0,
    max_uses := some 5 }

/-- Store for the C7 witness: one token, no agents. -/
def c7Db : Db := { Db.empty with bootstrap_tokens := [c7Token] }

/-- Witness for C7 at concrete inputs: a fresh registration succeeds,
appends the agent row, and bumps the token at index 0. -/
theorem register_agent_spec_witness :
    ∃ db', register_agent c7Db 0 "boot"
        { agent_id := "pi-09", hostname := "h", hardware := "hw" } "newtok"
      = .ok ("newtok", db') ∧
      db'.agents = c7Db.agents ++
        [mkAgent { agent_id := "pi-09", hostname := "h", hardware := "hw" }
          (hashToken "newtok")] := by
  obtain ⟨db', h1, h2, -⟩ := (register_agent_spec c7Db 0 "boot"
    { agent_id := "pi-09", hostname := "h", hardware := "hw" } "newtok"
    c7Token (by rfl)).2 (by rfl)
  exact ⟨db', h1, h2⟩

/-! ## C10 — decommission does not revoke the agent token -/

/-- C10: `verify_agent_token` never inspects `status`.  After
decommissioning an agent, its token still authenticates (returning the row
with `status = 'decommissioned'`), a heartbeat still succeeds and updates
`last_heartbeat`, and a config pull is never rejected as `Unauthorized`. -/
theorem decommissioned_agent_still_authenticates (db : Db)
    (aid plain : String) (a : Agent) (now : Int)
    (hnd : agentIdsNodup db)
    (hv : verify_agent_token db plain = some a)
    (hid : a.agent_id = aid) :
    ∃ db', decommission_agent db aid = .ok db' ∧
      verify_agent_token db' plain = some { a with status := "decommissioned" } ∧
      (∃ db'', agent_heartbeat db' now aid plain = .ok db'' ∧
        lastHeartbeatOf db'' aid = some (some now)) ∧
      get_agent_config db' aid plain ≠ .error .Unauthorized := by
  have hv' : List.find? (fun x => verifyToken plain x.agent_token_hash)
      db.agents = some a := hv
  have hmem : a ∈ db.agents := List.mem_of_find?_eq_some hv'
  have hfid : db.agents.find? (fun x => x.agent_id == aid) = some a := by
    have := find?_agent_id_of_mem hnd hmem
    rw [hid] at this
    exact this
  have hL1 : ∃ L1, updateFirst (fun x => x.agent_id == aid)
      (fun x => { x with status := "decommissioned" }) db.agents = L1 := ⟨_, rfl⟩
  obtain ⟨L1, hL1⟩ := hL1
  have hdec : decommission_agent db aid = .ok { db with agents := L1 } := by
    unfold decommission_agent
    simp only [hfid, hL1]
  have hver1 : verify_agent_token ({ db with agents := L1 } : Db) plain
      = some { a with status := "decommissioned" } := by
    show List.find? (fun x => verifyToken plain x.agent_token_hash) L1
      = some { a with status := "decommissioned" }
    rw [show L1 = updateFirst (fun x => x.agent_id == aid)
      (fun x => { x with status := "decommissioned" }) db.agents from hL1.symm]
    exact find?_updateFirst_self (fun x => x.agent_id == aid)
      (fun x => verifyToken plain x.agent_token_hash)
      (fun x => { x with status := "decommissioned" })
      db.agents a (fun x => rfl) hfid hv'
  have hfid1 : List.find? (fun x => x.agent_id == aid) L1
      = some { a with status := "decommissioned" } := by
    rw [show L1 = updateFirst (fun x => x.agent_id == aid)
      (fun x => { x with status := "decommissioned" }) db.agents from hL1.symm]
    exact find?_updateFirst_self (fun x => x.agent_id == aid)
      (fun x => x.agent_id == aid)
      (fun x => { x with status := "decommissioned" })
      db.agents a (fun x => rfl) hfid hfid
  refine ⟨{ db with agents := L1 }, hdec, hver1, ?_, ?_⟩
  · have hL2 : ∃ L2, updateFirst (fun x => verifyToken plain x.agent_token_hash)
        (fun x => { x with last_heartbeat := some now }) L1 = L2 := ⟨_, rfl⟩
    obtain ⟨L2, hL2⟩ := hL2
    refine ⟨{ db with agents := L2 }, ?_, ?_⟩
    · unfold agent_heartbeat
      simp only [hver1]
      rw [if_neg (by simp [hid])]
      rw [show ({ ({ db with agents := L1 } : Db) with
        agents := updateFirst (fun x => verifyToken plain x.agent_token_hash)
          (fun x => { x with last_heartbeat := some now }) L1 } : Db)
        = ({ db with agents := L2 } : Db) by rw [hL2]]
    · show (List.find? (fun x => x.agent_id == aid) L2).map
        (fun x => x.last_heartbeat) = some (some now)
      rw [show L2 = updateFirst (fun x => verifyToken plain x.agent_token_hash)
        (fun x => { x with last_heartbeat := some now }) L1 from hL2.symm]
      have hver1' : List.find? (fun x => verifyToken plain x.agent_token_hash)
          L1 = some { a with status := "decommissioned" } := hver1
      rw [find?_updateFirst_self
        (fun x => verifyToken plain x.agent_token_hash)
        (fun x => x.agent_id == aid)
        (fun x => { x with last_heartbeat := some now })
        L1 { a with status := "decommissioned" } (fun x => rfl) hver1' hfid1]
      rfl
  · intro hcontra
    unfold get_agent_config at hcontra
    simp only [hver1] at hcontra
    rw [if_neg (by simp [hid])] at hcontra
    by_cases hge : ({ a with status := "decommissioned" } : Agent).applied_config_version
        ≥ ({ a with status := "decommissioned" } : Agent).desired_config_version
    · rw [if_pos hge] at hcontra
      exact absurd hcontra (by simp)
    · rw [if_neg hge] at hcontra
      cases hrow : findConfigRow { db with agents := L1 } aid
          ({ a with status := "decommissioned" } : Agent).desired_config_version with
      | none =>
        simp only [hrow] at hcontra
        exact absurd hcontra (by simp)
      | some row =>
        simp only [hrow] at hcontra
        exact absurd hcontra (by simp)

/-- An active agent for the C10 witness. -/
def c10Agent : Agent :=
  { agent_id := "pi-01", hostname := "host", hardware := "rpi4",
    agent_token_hash := hashToken "atok", last_heartbeat := some 5,
    last_sync_at := none, status := "active", desired_config_version := 1,
    applied_config_version := 1 }

/-- Store for the C10 witness. -/
def c10Db : Db := { Db.empty with agents := [c10Agent] }

/-- Witness for C10 at concrete inputs. -/
theorem decommissioned_agent_still_authenticates_witness :
    ∃ db', decommission_agent c10Db "pi-01" = .ok db' ∧
      verify_agent_token db' "atok" =
        some { c10Agent with status := "decommissioned" } ∧
      (∃ db'', agent_heartbeat db' 99 "pi-01" "atok" = .ok db'' ∧
        lastHeartbeatOf db'' "pi-01" = some (some 99)) ∧
      get_agent_config db' "pi-01" "atok" ≠ .error .Unauthorized :=
  decommissioned_agent_still_authenticates c10Db "pi-01" "atok" c10Agent 99
    (by simp [agentIdsNodup, c10Db, Db.empty]) (by rfl) rfl

/-! ## C9 — buffer retention and idempotent mark-synced -/

/-- C9: across every buffer operation an unsynced reading is never deleted
(its row id survives `store`, `mark_synced` and `cleanup_old_synced`);
retention deletes only rows that are synced *and* older than the cutoff;
and `mark_synced` on ids whose readings are already synced is a no-op that
leaves the buffer exactly as it was. -/
theorem buffer_retention_and_idempotent_sync :
    (∀ (buf : Buffer) (op : BufOp) (r : Reading), r ∈ buf.readings →
       r.synced = false →
       ∃ r', r' ∈ (applyBufOp buf op).readings ∧ r'.id = r.id ∧
         r'.timestamp = r.timestamp ∧ r'.raw_value = r.raw_value) ∧
    (∀ (buf : Buffer) (now days : Int) (r : Reading),
       r ∈ buf.readings →
       r ∉ ((cleanup_old_synced buf now days).1).readings →
       r.synced = true ∧ r.timestamp < now - days * 24 * 3600) ∧
    (∀ (buf : Buffer) (ids : List Int),
       (∀ r ∈ buf.readings, ids.contains r.id = true → r.synced = true) →
       mark_synced buf ids = buf) := by
  refine ⟨?_, ?_, ?_⟩
  · intro buf op r hmem hsync
    cases op with
    | store r0 =>
      refine ⟨r, ?_, rfl, rfl, rfl⟩
      show r ∈ buf.readings ++ [{ r0 with id := buf.next_id }]
      exact List.mem_append_left _ hmem
    | markSynced ids =>
      show ∃ r', r' ∈ (mark_synced buf ids).readings ∧ _
      unfold mark_synced
      by_cases hids : ids.isEmpty
      · rw [if_pos hids]
        exact ⟨r, hmem, rfl, rfl, rfl⟩
      · rw [if_neg hids]
        refine ⟨if ids.contains r.id then { r with synced := true } else r,
          ?_, ?_, ?_, ?_⟩
        · exact List.mem_map_of_mem
            (fun x => if ids.contains x.id then { x with synced := true } else x)
            hmem
        · split <;> rfl
        · split <;> rfl
        · split <;> rfl
    | cleanup now days =>
      refine ⟨r, ?_, rfl, rfl, rfl⟩
      show r ∈ List.filter _ buf.readings
      rw [List.mem_filter]
      exact ⟨hmem, by simp [hsync]⟩
  · intro buf now days r hmem hnot
    by_cases hd : (r.synced && decide (r.timestamp < now - days * 24 * 3600)) = true
    · simpa using hd
    · exfalso
      apply hnot
      show r ∈ List.filter
        (fun x => !(x.synced && decide (x.timestamp < now - days * 24 * 3600)))
        buf.readings
      rw [List.mem_filter]
      exact ⟨hmem, by simp [hd]⟩
  · intro buf ids h
    unfold mark_synced
    by_cases hids : ids.isEmpty
    · rw [if_pos hids]
    · rw [if_neg hids]
      have hmap : buf.readings.map
          (fun x => if ids.contains x.id then { x with synced := true } else x)
          = buf.readings := by
        apply map_eq_self_of_forall
        intro x hx
        by_cases hc : ids.contains x.id
        · have hs : x.synced = true := h x hx hc
          rw [if_pos hc]
          cases x
          simp only at hs
          simp [hs]
        · rw [if_neg hc]
      rw [hmap]

/-- A synced old reading for the C9 witness. -/
def c9R1 : Reading :=
  { id := 1, timestamp := 0, sensor_channel := 0, sensor_type := "grove",
    raw_value := 500, moisture_percent := 50, location := "l",
    plant_type := "p", sensor_name := "s", synced := true }

/-- An unsynced reading for the C9 witness. -/
def c9R2 : Reading :=
  { id := 2, timestamp := 0, sensor_channel := 1, sensor_type := "grove",
    raw_value := 700, moisture_percent := 30, location := "l",
    plant_type := "p", sensor_name := "s", synced := false }

/-- Buffer for the C9 witness. -/
def c9Buf : Buffer := { readings := [c9R1, c9R2], next_id := 3 }

/-- Witness for C9 at concrete inputs: a retention run far in the future
keeps the unsynced row, and `mark_synced` on the already-synced id 1 is a
no-op. -/
theorem buffer_retention_and_idempotent_sync_witness :
    (∃ r', r' ∈ (applyBufOp c9Buf (.cleanup 10000000 30)).readings ∧
      r'.id = c9R2.id ∧ r'.timestamp = c9R2.timestamp ∧
      r'.raw_value = c9R2.raw_value) ∧
    mark_synced c9Buf [1] = c9Buf := by
  constructor
  · exact buffer_retention_and_idempotent_sync.1 c9Buf (.cleanup 10000000 30)
      c9R2 (by simp [c9Buf]) (by rfl)
  · exact buffer_retention_and_idempotent_sync.2.2 c9Buf [1]
      (by intro r hr hc
          simp [c9Buf] at hr
          rcases hr with h | h <;> subst h
          · rfl
          · simp [c9R2, List.contains] at hc)

/-! ## C6 — helpers: version log facts -/

/-- Discriminator for `PushConfig` targeting a given agent id. -/
def OrchOp.isPushFor : OrchOp → String → Bool
  | .pushConfig aid' _, aid => aid' == aid
  | _, _ => false

theorem check_reading_configs (db : Db) (now : Int) (aid : String) (ch : Int)
    (m : Rat) (location plant_type sensor_name : String) (th : Thresholds) :
    (check_reading db now aid ch m location plant_type sensor_name th).agent_configs
      = db.agent_configs := by
  unfold check_reading createAlert resolveAlert
  cases db.active_alerts.find? (fun al =>
      al.agent_id == aid && al.sensor_channel == ch && al.resolved_at == none) with
  | none =>
    dsimp only
    split
    · rfl
    · split <;> rfl
  | some al =>
    dsimp only
    split
    · rfl
    · split <;> rfl

theorem version_lt_newVersionFor (db : Db) (aid : String) (c : AgentConfigRow)
    (hc : c ∈ db.agent_configs) (hid : c.agent_id = aid) :
    c.version < newVersionFor db aid := by
  have hmem : c.version ∈ ((db.agent_configs.filter
      (fun x => x.agent_id == aid)).map (fun x => x.version)) :=
    List.mem_map_of_mem _ (List.mem_filter.mpr ⟨hc, by simp [hid]⟩)
  unfold newVersionFor
  cases hm : ((db.agent_configs.filter
      (fun x => x.agent_id == aid)).map (fun x => x.version)).max? with
  | none =>
    exfalso
    rw [List.max?_eq_none_iff] at hm
    rw [hm] at hmem
    simp at hmem
  | some m =>
    have hle : c.version ≤ m :=
      (List.max?_le_iff (fun a b c => max_le_iff) hm).1 (le_refl m) c.version hmem
    simp only [hm]
    omega

/-- The per-agent config-version log is strictly increasing in table
order. -/
def versionsSorted (db : Db) : Prop :=
  ∀ aid, (versionsOf db aid).Pairwise (· < ·)

theorem versionsSorted_applyOp (db : Db) (op : OrchOp)
    (hs : versionsSorted db) : versionsSorted (applyOp db op) := by
  cases op with
  | register now plain req fresh =>
    cases hreg : register_agent db now plain req fresh with
    | error e =>
      intro aid
      show (versionsOf (match register_agent db now plain req fresh with
        | .ok (_, db') => db' | .error _ => db) aid).Pairwise (· < ·)
      rw [hreg]
      exact hs aid
    | ok p =>
      obtain ⟨s, db'⟩ := p
      obtain ⟨-, -, hdb⟩ := register_agent_ok hreg
      have happ : applyOp db (OrchOp.register now plain req fresh) = db' := by
        show (match register_agent db now plain req fresh with
          | .ok (_, db') => db' | .error _ => db) = db'
        rw [hreg]
      rw [happ, hdb]
      exact hs
  | heartbeat now aid' plain =>
    cases hh : agent_heartbeat db now aid' plain with
    | error e =>
      intro aid
      show (versionsOf (match agent_heartbeat db now aid' plain with
        | .ok db' => db' | .error _ => db) aid).Pairwise (· < ·)
      rw [hh]
      exact hs aid
    | ok db' =>
      obtain ⟨a, -, -, hdb⟩ := agent_heartbeat_ok hh
      have happ : applyOp db (OrchOp.heartbeat now aid' plain) = db' := by
        show (match agent_heartbeat db now aid' plain with
          | .ok db' => db' | .error _ => db) = db'
        rw [hh]
      rw [happ, hdb]
      exact hs
  | pullConfig aid' plain => exact hs
  | pushConfig aid' payload =>
    cases hu : update_agent_config db aid' payload with
    | error e =>
      intro aid
      show (versionsOf (match update_agent_config db aid' payload with
        | .ok (_, db') => db' | .error _ => db) aid).Pairwise (· < ·)
      rw [hu]
      exact hs aid
    | ok p =>
      obtain ⟨v, db'⟩ := p
      obtain ⟨-, -, hdb⟩ := update_agent_config_ok hu
      have happ : applyOp db (OrchOp.pushConfig aid' payload) = db' := by
        show (match update_agent_config db aid' payload with
          | .ok (_, db') => db' | .error _ => db) = db'
        rw [hu]
      rw [happ, hdb]
      intro aid
      show (((db.agent_configs ++ [({ agent_id := aid', version := newVersionFor db aid', config_data := payload, applied_at := none } : AgentConfigRow)]).filter (fun c => c.agent_id == aid)).map (fun c => c.version)).Pairwise (· < ·)
      rw [List.filter_append, List.map_append]
      by_cases hq : (aid' == aid) = true
      · have heq : aid' = aid := by simpa using hq
        rw [List.filter_cons]
        rw [if_pos (show (({ agent_id := aid', version := newVersionFor db aid', config_data := payload, applied_at := none } : AgentConfigRow).agent_id == aid) = true from by simpa using hq)]
        rw [show (List.filter (fun c => c.agent_id == aid) ([] : List AgentConfigRow)) = [] from rfl]
        rw [List.pairwise_append]
        refine ⟨hs aid, by simp, ?_⟩
        intro x hx y hy
        simp only [List.map_cons, List.map_nil, List.mem_cons,
          List.not_mem_nil, or_false] at hy
        subst hy
        obtain ⟨c, hcmem, hcver⟩ := List.mem_map.mp hx
        obtain ⟨hcin, hcid⟩ := List.mem_filter.mp hcmem
        subst hcver
        show c.version < newVersionFor db aid'
        rw [heq]
        exact version_lt_newVersionFor db aid c hcin (by simpa using hcid)
      · rw [List.filter_cons]
        rw [show (({ agent_id := aid', version := newVersionFor db aid', config_data := payload, applied_at := none } : AgentConfigRow).agent_id == aid) = false from by simpa using hq]
        simp only [Bool.false_eq_true, if_false]
        rw [show (List.filter (fun c => c.agent_id == aid) ([] : List AgentConfigRow)) = [] from rfl]
        rw [List.map_nil, List.append_nil]
        exact hs aid
  | reportApplied now aid' version plain =>
    cases hr : report_config_applied db now aid' version plain with
    | error e =>
      intro aid
      show (versionsOf (match report_config_applied db now aid' version plain with
        | .ok db' => db' | .error _ => db) aid).Pairwise (· < ·)
      rw [hr]
      exact hs aid
    | ok db' =>
      obtain ⟨a, -, -, hdb⟩ := report_config_applied_ok hr
      have happ : applyOp db (OrchOp.reportApplied now aid' version plain) = db' := by
        show (match report_config_applied db now aid' version plain with
          | .ok db' => db' | .error _ => db) = db'
        rw [hr]
      rw [happ, hdb]
      intro aid
      show ((( updateFirst (fun c => c.agent_id == aid' && c.version == version)
        (fun c => { c with applied_at := some now })
        db.agent_configs).filter (fun c => c.agent_id == aid)).map
          (fun c => c.version)).Pairwise (· < ·)
      rw [filter_map_updateFirst
        (fun c => c.agent_id == aid' && c.version == version)
        (fun c => { c with applied_at := some now })
        (fun c => c.agent_id == aid)
        (fun c => c.version)
        db.agent_configs (fun x => rfl) (fun x => rfl)]
      exact hs aid
  | decommission aid' =>
    cases hd : decommission_agent db aid' with
    | error e =>
      intro aid
      show (versionsOf (match decommission_agent db aid' with
        | .ok db' => db' | .error _ => db) aid).Pairwise (· < ·)
      rw [hd]
      exact hs aid
    | ok db' =>
      obtain ⟨a, -, hdb⟩ := decommission_agent_ok hd
      have happ : applyOp db (OrchOp.decommission aid') = db' := by
        show (match decommission_agent db aid' with
          | .ok db' => db' | .error _ => db) = db'
        rw [hd]
      rw [happ, hdb]
      exact hs
  | checkReading now aid' ch m location plant_type sensor_name th =>
    intro aid
    show (versionsOf (check_reading db now aid' ch m location plant_type
      sensor_name th) aid).Pairwise (· < ·)
    unfold versionsOf
    rw [check_reading_configs]
    exact hs aid
  | checkAgentOffline now tm => exact hs
  | acknowledgeAlert alert_id =>
    cases ha : acknowledge_alert db alert_id with
    | error e =>
      intro aid
      show (versionsOf (match acknowledge_alert db alert_id with
        | .ok db' => db' | .error _ => db) aid).Pairwise (· < ·)
      rw [ha]
      exact hs aid
    | ok db' =>
      have hdb := acknowledge_alert_ok ha
      have happ : applyOp db (OrchOp.acknowledgeAlert alert_id) = db' := by
        show (match acknowledge_alert db alert_id with
          | .ok db' => db' | .error _ => db) = db'
        rw [ha]
      rw [happ, hdb]
      exact hs
  | createBootstrapToken h e m => exact hs

theorem versionsSorted_applyOps (ops : List OrchOp) (db : Db)
    (hs : versionsSorted db) : versionsSorted (applyOps db ops) := by
  induction ops generalizing db with
  | nil => exact hs
  | cons op rest ih => exact ih (applyOp db op) (versionsSorted_applyOp db op hs)

/-- C6: `PushConfig` on an existing agent appends a config row at
`max(existing versions for that agent) + 1` (`1` when none exists) and
points the agent's `desired_config_version` at it, with the new version
strictly above every existing version for that agent (so versions are
never reused); over any operation history from the empty store the
per-agent version log is strictly increasing; and for an existing agent no
operation other than a `PushConfig` for that agent ever changes
`desired_config_version`. -/
theorem push_config_versioning :
    (∀ (db : Db) (aid payload : String) (a : Agent),
       db.agents.find? (fun x => x.agent_id == aid) = some a →
       ∃ db', update_agent_config db aid payload = .ok (newVersionFor db aid, db') ∧
         db'.agent_configs = db.agent_configs ++ [({ agent_id := aid, version := newVersionFor db aid, config_data := payload, applied_at := none } : AgentConfigRow)] ∧
         desiredOf db' aid = some (newVersionFor db aid) ∧
         (∀ c ∈ db.agent_configs, c.agent_id = aid →
            c.version < newVersionFor db aid)) ∧
    (∀ (ops : List OrchOp) (aid : String),
       (versionsOf (applyOps Db.empty ops) aid).Pairwise (· < ·)) ∧
    (∀ (db : Db) (op : OrchOp) (aid : String) (a : Agent),
       db.agents.find? (fun x => x.agent_id == aid) = some a →
       op.isPushFor aid = false →
       desiredOf (applyOp db op) aid = some a.desired_config_version) := by
  refine ⟨?_, ?_, ?_⟩
  · intro db aid payload a hfind
    refine ⟨{ db with
        agent_configs := db.agent_configs ++ [({ agent_id := aid, version := newVersionFor db aid, config_data := payload, applied_at := none } : AgentConfigRow)],
        agents := updateFirst (fun x => x.agent_id == aid)
          (fun x => { x with desired_config_version := newVersionFor db aid })
          db.agents }, ?_, rfl, ?_, ?_⟩
    · unfold update_agent_config
      simp only [hfind]
    · show (List.find? (fun x => x.agent_id == aid)
        (updateFirst (fun x => x.agent_id == aid)
          (fun x => { x with desired_config_version := newVersionFor db aid })
          db.agents)).map (fun x => x.desired_config_version)
        = some (newVersionFor db aid)
      rw [find?_updateFirst_self (fun x => x.agent_id == aid)
        (fun x => x.agent_id == aid)
        (fun x => { x with desired_config_version := newVersionFor db aid })
        db.agents a (fun x => rfl) hfind hfind]
      rfl
    · intro c hc hcid
      exact version_lt_newVersionFor db aid c hc hcid
  · intro ops aid
    exact versionsSorted_applyOps ops Db.empty
      (fun aid' => by simp [versionsOf, Db.empty]) aid
  · intro db op aid a hfind hop
    cases op with
    | register now plain req fresh =>
      cases hreg : register_agent db now plain req fresh with
      | error e =>
        show desiredOf (match register_agent db now plain req fresh with
          | .ok (_, db') => db' | .error _ => db) aid = _
        rw [hreg]
        unfold desiredOf
        rw [hfind]
        rfl
      | ok p =>
        obtain ⟨s, db'⟩ := p
        obtain ⟨-, -, hdb⟩ := register_agent_ok hreg
        have happ : applyOp db (OrchOp.register now plain req fresh) = db' := by
          show (match register_agent db now plain req fresh with
            | .ok (_, db') => db' | .error _ => db) = db'
          rw [hreg]
        rw [happ, hdb]
        show (List.find? (fun x => x.agent_id == aid)
          (db.agents ++ [mkAgent req (hashToken fresh)])).map
            (fun x => x.desired_config_version) = _
        rw [List.find?_append, hfind]
        rfl
    | heartbeat now aid' plain =>
      cases hh : agent_heartbeat db now aid' plain with
      | error e =>
        show desiredOf (match agent_heartbeat db now aid' plain with
          | .ok db' => db' | .error _ => db) aid = _
        rw [hh]
        unfold desiredOf
        rw [hfind]
        rfl
      | ok db' =>
        obtain ⟨b, -, -, hdb⟩ := agent_heartbeat_ok hh
        have happ : applyOp db (OrchOp.heartbeat now aid' plain) = db' := by
          show (match agent_heartbeat db now aid' plain with
            | .ok db' => db' | .error _ => db) = db'
          rw [hh]
        rw [happ, hdb]
        show (List.find? (fun x => x.agent_id == aid)
          (updateFirst (fun x => verifyToken plain x.agent_token_hash)
            (fun x => { x with last_heartbeat := some now }) db.agents)).map
            (fun x => x.desired_config_version) = _
        rw [find?_map_updateFirst
          (fun x => verifyToken plain x.agent_token_hash)
          (fun x => { x with last_heartbeat := some now })
          (fun x => x.agent_id == aid)
          (fun x => x.desired_config_version)
          db.agents (fun x => rfl) (fun x => rfl), hfind]
        rfl
    | pullConfig aid' plain =>
      show desiredOf db aid = _
      unfold desiredOf
      rw [hfind]
      rfl
    | pushConfig aid' payload =>
      have hne : (aid' == aid) = false := by
        simpa [OrchOp.isPushFor] using hop
      cases hu : update_agent_config db aid' payload with
      | error e =>
        show desiredOf (match update_agent_config db aid' payload with
          | .ok (_, db') => db' | .error _ => db) aid = _
        rw [hu]
        unfold desiredOf
        rw [hfind]
        rfl
      | ok p =>
        obtain ⟨v, db'⟩ := p
        obtain ⟨-, -, hdb⟩ := update_agent_config_ok hu
        have happ : applyOp db (OrchOp.pushConfig aid' payload) = db' := by
          show (match update_agent_config db aid' payload with
            | .ok (_, db') => db' | .error _ => db) = db'
          rw [hu]
        rw [happ, hdb]
        show (List.find? (fun x => x.agent_id == aid)
          (updateFirst (fun x => x.agent_id == aid')
            (fun x => { x with desired_config_version := newVersionFor db aid' })
            db.agents)).map (fun x => x.desired_config_version) = _
        rw [find?_updateFirst_of_ne (fun x => x.agent_id == aid')
          (fun x => x.agent_id == aid)
          (fun x => { x with desired_config_version := newVersionFor db aid' })
          db.agents (fun x => rfl) ?_, hfind]
        · rfl
        · intro x hx
          have hx' : x.agent_id = aid' := by simpa using hx
          show (x.agent_id == aid) = false
          rw [hx']
          exact hne
    | reportApplied now aid' version plain =>
      cases hr : report_config_applied db now aid' version plain with
      | error e =>
        show desiredOf (match report_config_applied db now aid' version plain with
          | .ok db' => db' | .error _ => db) aid = _
        rw [hr]
        unfold desiredOf
        rw [hfind]
        rfl
      | ok db' =>
        obtain ⟨b, -, -, hdb⟩ := report_config_applied_ok hr
        have happ : applyOp db (OrchOp.reportApplied now aid' version plain)
            = db' := by
          show (match report_config_applied db now aid' version plain with
            | .ok db' => db' | .error _ => db) = db'
          rw [hr]
        rw [happ, hdb]
        show (List.find? (fun x => x.agent_id == aid)
          (updateFirst (fun x => verifyToken plain x.agent_token_hash)
            (fun x => { x with applied_config_version := version })
            db.agents)).map (fun x => x.desired_config_version) = _
        rw [find?_map_updateFirst
          (fun x => verifyToken plain x.agent_token_hash)
          (fun x => { x with applied_config_version := version })
          (fun x => x.agent_id == aid)
          (fun x => x.desired_config_version)
          db.agents (fun x => rfl) (fun x => rfl), hfind]
        rfl
    | decommission aid' =>
      cases hd : decommission_agent db aid' with
      | error e =>
        show desiredOf (match decommission_agent db aid' with
          | .ok db' => db' | .error _ => db) aid = _
        rw [hd]
        unfold desiredOf
        rw [hfind]
        rfl
      | ok db' =>
        obtain ⟨b, -, hdb⟩ := decommission_agent_ok hd
        have happ : applyOp db (OrchOp.decommission aid') = db' := by
          show (match decommission_agent db aid' with
            | .ok db' => db' | .error _ => db) = db'
          rw [hd]
        rw [happ, hdb]
        show (List.find? (fun x => x.agent_id == aid)
          (updateFirst (fun x => x.agent_id == aid')
            (fun x => { x with status := "decommissioned" })
            db.agents)).map (fun x => x.desired_config_version) = _
        rw [find?_map_updateFirst
          (fun x => x.agent_id == aid')
          (fun x => { x with status := "decommissioned" })
          (fun x => x.agent_id == aid)
          (fun x => x.desired_config_version)
          db.agents (fun x => rfl) (fun x => rfl), hfind]
        rfl
    | checkReading now aid' ch m location plant_type sensor_name th =>
      show desiredOf (check_reading db now aid' ch m location plant_type
        sensor_name th) aid = _
      unfold desiredOf
      rw [check_reading_agents, hfind]
      rfl
    | checkAgentOffline now tm =>
      show desiredOf (check_agent_offline db now tm) aid = _
      unfold desiredOf
      rw [show (check_agent_offline db now tm).agents = db.agents from rfl, hfind]
      rfl
    | acknowledgeAlert alert_id =>
      cases ha : acknowledge_alert db alert_id with
      | error e =>
        show desiredOf (match acknowledge_alert db alert_id with
          | .ok db' => db' | .error _ => db) aid = _
        rw [ha]
        unfold desiredOf
        rw [hfind]
        rfl
      | ok db' =>
        have hdb := acknowledge_alert_ok ha
        have happ : applyOp db (OrchOp.acknowledgeAlert alert_id) = db' := by
          show (match acknowledge_alert db alert_id with
            | .ok db' => db' | .error _ => db) = db'
          rw [ha]
        rw [happ, hdb]
        show (List.find? (fun x => x.agent_id == aid) db.agents).map
          (fun x => x.desired_config_version) = _
        rw [hfind]
        rfl
    | createBootstrapToken h e m =>
      show desiredOf (create_bootstrap_token db h e m) aid = _
      unfold desiredOf
      rw [show (create_bootstrap_token db h e m).agents = db.agents from rfl,
        hfind]
      rfl

/-- An agent with no config rows yet, for the C6 witness. -/
def c6Agent : Agent :=
  { agent_id := "pi-01", hostname := "host", hardware := "rpi4",
    agent_token_hash := hashToken "atok", last_heartbeat := none,
    last_sync_at := none, status := "active", desired_config_version := 1,
    applied_config_version := 0 }

/-- Store for the C6 witness. -/
def c6Db : Db := { Db.empty with agents := [c6Agent] }

/-- Witness for C6 at concrete inputs: a first push creates version 1 and
points `desired_config_version` at it; the empty history satisfies the
sorted-version invariant; and a heartbeat leaves `desired` untouched. -/
theorem push_config_versioning_witness :
    (∃ db', update_agent_config c6Db "pi-01" "cfg"
        = .ok (newVersionFor c6Db "pi-01", db') ∧
      db'.agent_configs = c6Db.agent_configs ++ [({ agent_id := "pi-01", version := newVersionFor c6Db "pi-01", config_data := "cfg", applied_at := none } : AgentConfigRow)] ∧
      desiredOf db' "pi-01" = some (newVersionFor c6Db "pi-01") ∧
      (∀ c ∈ c6Db.agent_configs, c.agent_id = "pi-01" →
         c.version < newVersionFor c6Db "pi-01")) ∧
    (versionsOf (applyOps Db.empty []) "pi-01").Pairwise (· < ·) ∧
    desiredOf (applyOp c6Db (.heartbeat 5 "pi-01" "atok")) "pi-01"
      = some c6Agent.desired_config_version := by
  refine ⟨?_, ?_, ?_⟩
  · exact push_config_versioning.1 c6Db "pi-01" "cfg" c6Agent (by rfl)
  · exact push_config_versioning.2.1 [] "pi-01"
  · exact push_config_versioning.2.2 c6Db (.heartbeat 5 "pi-01" "atok")
      "pi-01" c6Agent (by rfl) rfl

/-! ## C8 — the liveness sweep is idempotent -/

theorem not_offline_and_online (cutoff : Int) (a : Agent) :
    ¬(isOffline cutoff a = true ∧ isOnline cutoff a = true) := by
  rintro ⟨h1, h2⟩
  unfold isOffline at h1
  unfold isOnline at h2
  cases hhb : a.last_heartbeat with
  | none =>
    rw [hhb] at h1
    simp at h1
  | some t =>
    rw [hhb] at h1 h2
    simp at h1 h2
    omega

theorem online_contains_eq_false {db : Db} (hnd : agentIdsNodup db)
    (cutoff : Int) {a : Agent} (ha : a ∈ db.agents)
    (hoff : isOffline cutoff a = true) :
    ((db.agents.filter (isOnline cutoff)).map
      (fun x => x.agent_id)).contains a.agent_id = false := by
  by_contra hcon
  rw [Bool.not_eq_false] at hcon
  have hmem : a.agent_id ∈ (db.agents.filter (isOnline cutoff)).map
      (fun x => x.agent_id) := by
    simpa using hcon
  obtain ⟨b, hbmem, hbid⟩ := List.mem_map.mp hmem
  obtain ⟨hbin, hbon⟩ := List.mem_filter.mp hbmem
  have hba : b = a := eq_of_mem_same_agent_id hnd hbin ha hbid
  subst hba
  exact not_offline_and_online cutoff b ⟨hoff, hbon⟩

theorem assignOfflineIds_any (now : Int) (a : Agent) :
    ∀ (b : Int) (l : List Agent), a ∈ l →
    hasUnresolvedOffline (assignOfflineIds b now l) a.agent_id = true := by
  intro b l
  induction l generalizing b with
  | nil => intro h; simp at h
  | cons x xs ih =>
    intro h
    rcases List.mem_cons.mp h with h | h
    · subst h
      unfold assignOfflineIds hasUnresolvedOffline
      simp [mkOfflineAlert]
    · unfold assignOfflineIds hasUnresolvedOffline
      rw [List.any_cons]
      have := ih (b + 1) h
      unfold hasUnresolvedOffline at this
      rw [this]
      simp

theorem mem_assignOfflineIds {al : ActiveAlert} {now : Int} :
    ∀ {b : Int} {l : List Agent}, al ∈ assignOfflineIds b now l →
    ∃ a ∈ l, al.agent_id = a.agent_id ∧ al.alert_type = "agent_offline" ∧
      al.resolved_at = none := by
  intro b l
  induction l generalizing b with
  | nil => intro h; simp [assignOfflineIds] at h
  | cons x xs ih =>
    intro h
    rcases List.mem_cons.mp h with h | h
    · subst h
      exact ⟨x, List.mem_cons_self x xs, rfl, rfl, rfl⟩
    · obtain ⟨a, hal, h1, h2, h3⟩ := ih h
      exact ⟨a, List.mem_cons_of_mem x hal, h1, h2, h3⟩

theorem check_agent_offline_fixed (db2 : Db) (now tm : Int)
    (h1 : (db2.agents.filter (isOffline (now - tm * 60))).filter
      (fun a => !(hasUnresolvedOffline db2.active_alerts a.agent_id)) = [])
    (h2 : db2.active_alerts.map (fun al =>
      if offlineAlertCond ((db2.agents.filter (isOnline (now - tm * 60))).map
        (fun a => a.agent_id)) al
      then { al with resolved_at := some now } else al) = db2.active_alerts) :
    check_agent_offline db2 now tm = db2 := by
  show ({ db2 with
    active_alerts := db2.active_alerts.map (fun al =>
      if offlineAlertCond ((db2.agents.filter (isOnline (now - tm * 60))).map
        (fun a => a.agent_id)) al
      then { al with resolved_at := some now } else al) ++
      assignOfflineIds db2.next_alert_id now
        ((db2.agents.filter (isOffline (now - tm * 60))).filter
          (fun a => !(hasUnresolvedOffline db2.active_alerts a.agent_id))),
    next_alert_id := db2.next_alert_id +
      ((db2.agents.filter (isOffline (now - tm * 60))).filter
        (fun a => !(hasUnresolvedOffline db2.active_alerts a.agent_id))).length } : Db)
    = db2
  rw [h1, h2]
  show ({ db2 with
    active_alerts := db2.active_alerts ++ [],
    next_alert_id := db2.next_alert_id + (0 : Nat) } : Db) = db2
  rw [List.append_nil]
  norm_num

/-- C8: the agent-offline sweep is idempotent — with unchanged heartbeats
and the same cutoff, running `check_agent_offline` a second time creates
no alert (every offline agent already carries an unresolved
`agent_offline` alert after the first run) and resolves nothing further
(every matching alert was already resolved), leaving the store exactly as
the first run left it. -/
theorem offline_sweep_idempotent (db : Db) (now tm : Int)
    (hnd : agentIdsNodup db) :
    check_agent_offline (check_agent_offline db now tm) now tm
      = check_agent_offline db now tm := by
  have hagents : (check_agent_offline db now tm).agents = db.agents := rfl
  have halerts : (check_agent_offline db now tm).active_alerts
      = db.active_alerts.map (fun al =>
          if offlineAlertCond ((db.agents.filter (isOnline (now - tm * 60))).map
            (fun a => a.agent_id)) al
          then { al with resolved_at := some now } else al) ++
        assignOfflineIds db.next_alert_id now
          ((db.agents.filter (isOffline (now - tm * 60))).filter
            (fun a => !(hasUnresolvedOffline db.active_alerts a.agent_id))) := rfl
  apply check_agent_offline_fixed
  · rw [List.filter_eq_nil_iff]
    intro a ha
    rw [hagents] at ha
    obtain ⟨hain, haoff⟩ := List.mem_filter.mp ha
    rw [Bool.not_eq_true', Bool.not_eq_false]
    rw [halerts]
    unfold hasUnresolvedOffline
    rw [List.any_append]
    by_cases hc : hasUnresolvedOffline db.active_alerts a.agent_id
    · -- a pre-existing unresolved agent_offline alert survives the resolve
      -- pass, because an offline agent is never in the online-id list
      obtain ⟨al, halmem, halp⟩ :=
        List.any_eq_true.mp (by unfold hasUnresolvedOffline at hc; exact hc)
      have halid : al.agent_id = a.agent_id := by
        simp only [Bool.and_eq_true, beq_iff_eq] at halp
        exact halp.1.1
      have hcontains : ((db.agents.filter (isOnline (now - tm * 60))).map
          (fun x => x.agent_id)).contains al.agent_id = false := by
        rw [halid]
        exact online_contains_eq_false hnd (now - tm * 60) hain haoff
      have hfix : (if offlineAlertCond ((db.agents.filter
          (isOnline (now - tm * 60))).map (fun a => a.agent_id)) al
          then { al with resolved_at := some now } else al) = al := by
        rw [if_neg]
        unfold offlineAlertCond
        rw [hcontains]
        simp
      have himg : al ∈ db.active_alerts.map (fun al =>
          if offlineAlertCond ((db.agents.filter (isOnline (now - tm * 60))).map
            (fun a => a.agent_id)) al
          then { al with resolved_at := some now } else al) := by
        rw [show al = (if offlineAlertCond ((db.agents.filter
            (isOnline (now - tm * 60))).map (fun a => a.agent_id)) al
            then { al with resolved_at := some now } else al) from hfix.symm]
        exact List.mem_map_of_mem _ halmem
      have : (db.active_alerts.map (fun al =>
          if offlineAlertCond ((db.agents.filter (isOnline (now - tm * 60))).map
            (fun a => a.agent_id)) al
          then { al with resolved_at := some now } else al)).any (fun al =>
            al.agent_id == a.agent_id && al.alert_type == "agent_offline" &&
              al.resolved_at == none) = true :=
        List.any_eq_true.mpr ⟨al, himg, halp⟩
      rw [this]
      simp
    · -- the first run created the alert
      have haC : a ∈ (db.agents.filter (isOffline (now - tm * 60))).filter
          (fun x => !(hasUnresolvedOffline db.active_alerts x.agent_id)) :=
        List.mem_filter.mpr ⟨List.mem_filter.mpr ⟨hain, haoff⟩, by simp [hc]⟩
      have := assignOfflineIds_any now a db.next_alert_id _ haC
      unfold hasUnresolvedOffline at this
      rw [this]
      simp
  · apply map_eq_self_of_forall
    intro al hal
    rw [hagents]
    rw [halerts] at hal
    rcases List.mem_append.mp hal with hal | hal
    · obtain ⟨al0, hal0, heq⟩ := List.mem_map.mp hal
      by_cases hc0 : offlineAlertCond ((db.agents.filter
          (isOnline (now - tm * 60))).map (fun a => a.agent_id)) al0 = true
      · rw [if_pos hc0] at heq
        subst heq
        rw [if_neg]
        unfold offlineAlertCond
        simp
      · rw [if_neg hc0] at heq
        subst heq
        rw [if_neg hc0]
    · obtain ⟨a, haC, hid, -, -⟩ := mem_assignOfflineIds hal
      obtain ⟨hain, haoff⟩ := List.mem_filter.mp (List.mem_filter.mp haC).1
      rw [if_neg]
      unfold offlineAlertCond
      rw [hid, online_contains_eq_false hnd (now - tm * 60) hain
        ((List.mem_filter.mp (List.mem_filter.mp haC).1).2)]
      simp

/-- An offline agent (old heartbeat) for the C8 witness. -/
def c8Agent : Agent :=
  { agent_id := "pi-01", hostname := "host", hardware := "rpi4",
    agent_token_hash := hashToken "atok", last_heartbeat := some 0,
    last_sync_at := none, status := "active", desired_config_version := 1,
    applied_config_version := 0 }

/-- Store for the C8 witness. -/
def c8Db : Db := { Db.empty with agents := [c8Agent] }

/-- Witness for C8 at concrete inputs: sweeping a store with one
long-silent agent twice equals sweeping it once. -/
theorem offline_sweep_idempotent_witness :
    check_agent_offline (check_agent_offline c8Db 10000 10) 10000 10
      = check_agent_offline c8Db 10000 10 :=
  offline_sweep_idempotent c8Db 10000 10
    (by simp [agentIdsNodup, c8Db, Db.empty])

end RaspiMoisture
